import Mathlib

/-!
Verification development for the metaf METAR/TAF parser (single header
`metaf.h`).  The definitions below are shallow embeddings of the C++
source: enumerations and structures mirror the classes of `metaf.h`,
and each function is a direct translation of the member function whose
name it bears (line references are given in the doc comments).

The report-level parser `GenericParser` is a C++ template parameterized
by a group parser and a syntax-group getter; the embedding keeps that
parameterization, so theorems about the token loop are proved for every
instantiation, in particular for the concrete `Parser` instantiation
whose token classification is embedded as `getSyntaxGroupOfToken`.
-/

namespace Metaf

/-- Enumeration `metaf::ReportPart` (metaf.h:74-80). -/
inductive ReportPart where
  | UNKNOWN
  | HEADER
  | METAR
  | TAF
  | RMK
  deriving DecidableEq, Repr, Fintype

/-- Enumeration `metaf::ReportType` (metaf.h:1116-1120). -/
inductive ReportType where
  | UNKNOWN
  | METAR
  | TAF
  deriving DecidableEq, Repr, Fintype

/-- Enumeration `metaf::SyntaxGroup` (metaf.h:1074-1088). -/
inductive SyntaxGroup where
  | OTHER
  | METAR
  | SPECI
  | TAF
  | COR
  | AMD
  | LOCATION
  | REPORT_TIME
  | TIME_SPAN
  | CNL
  | NIL
  | RMK
  | MAINTENANCE_INDICATOR
  deriving DecidableEq, Repr, Fintype

/-- Enumeration `GenericParser::Error` (metaf.h:1127-1143). -/
inductive Error where
  | NONE
  | EMPTY_REPORT
  | EXPECTED_REPORT_TYPE_OR_LOCATION
  | EXPECTED_LOCATION
  | EXPECTED_REPORT_TIME
  | EXPECTED_TIME_SPAN
  | UNEXPECTED_REPORT_END
  | UNEXPECTED_GROUP_AFTER_NIL
  | UNEXPECTED_GROUP_AFTER_CNL
  | UNEXPECTED_GROUP_AFTER_MAINTENANCE_INDICATOR
  | UNEXPECTED_NIL_OR_CNL_IN_REPORT_BODY
  | AMD_ALLOWED_IN_TAF_ONLY
  | CNL_ALLOWED_IN_TAF_ONLY
  | MAINTENANCE_INDICATOR_ALLOWED_IN_METAR_ONLY
  | INTERNAL_PARSER_STATE
  deriving DecidableEq, Repr, Fintype

/-- Enumeration `GenericParser::Status::State` (metaf.h:1211-1229). -/
inductive State where
  | REPORT_TYPE_OR_LOCATION
  | CORRECTION
  | LOCATION
  | REPORT_TIME
  | TIME_SPAN
  | REPORT_BODY_BEGIN_METAR
  | REPORT_BODY_BEGIN_METAR_REPEAT_PARSE
  | REPORT_BODY_METAR
  | REPORT_BODY_BEGIN_TAF
  | REPORT_BODY_TAF
  | REMARK_METAR
  | REMARK_TAF
  | MAINTENANCE_INDICATOR
  | NIL
  | CNL
  | ERROR
  deriving DecidableEq, Repr, Fintype

/-- Class `GenericParser::Status` (metaf.h:1195-1246): the state-machine
state together with the detected report type and the terminal error. -/
structure Status where
  state : State
  reportType : ReportType
  error : Error
  deriving DecidableEq, Repr, Fintype

namespace Status

/-- Constructor `Status()` (metaf.h:1197-1200). -/
def init : Status :=
  ⟨State.REPORT_TYPE_OR_LOCATION, ReportType.UNKNOWN, Error.NONE⟩

/-- Member `Status::isError` (metaf.h:1203). -/
def isError (st : Status) : Bool :=
  st.error ≠ Error.NONE

/-- Member `Status::isReparseRequired` (metaf.h:1207-1209). -/
def isReparseRequired (st : Status) : Bool :=
  st.state = State.REPORT_BODY_BEGIN_METAR_REPEAT_PARSE

/-- Member `Status::setState` (metaf.h:1231). -/
def setState (st : Status) (s : State) : Status :=
  { st with state := s }

/-- Member `Status::setError` (metaf.h:1232): sets the error and moves
the state machine to the terminal `ERROR` state. -/
def setError (st : Status) (e : Error) : Status :=
  { st with state := State.ERROR, error := e }

/-- Member `Status::setReportType` (metaf.h:1233). -/
def setReportType (st : Status) (rt : ReportType) : Status :=
  { st with reportType := rt }

/-- Member `Status::getReportPart` (metaf.h:3413-3440): the report part
under which the current token is dispatched, looked up from the state. -/
def getReportPart (st : Status) : ReportPart :=
  match st.state with
  | State.REPORT_TYPE_OR_LOCATION => ReportPart.HEADER
  | State.CORRECTION => ReportPart.HEADER
  | State.LOCATION => ReportPart.HEADER
  | State.REPORT_TIME => ReportPart.HEADER
  | State.TIME_SPAN => ReportPart.HEADER
  | State.REPORT_BODY_BEGIN_METAR => ReportPart.METAR
  | State.REPORT_BODY_BEGIN_METAR_REPEAT_PARSE => ReportPart.METAR
  | State.REPORT_BODY_METAR => ReportPart.METAR
  | State.REPORT_BODY_BEGIN_TAF => ReportPart.TAF
  | State.REPORT_BODY_TAF => ReportPart.TAF
  | State.REMARK_METAR => ReportPart.RMK
  | State.REMARK_TAF => ReportPart.RMK
  | State.MAINTENANCE_INDICATOR => ReportPart.UNKNOWN
  | State.NIL => ReportPart.UNKNOWN
  | State.CNL => ReportPart.UNKNOWN
  | State.ERROR => ReportPart.UNKNOWN

/-- Member `Status::transitionFromReportTypeOrLocation` (metaf.h:3519-3544). -/
def transitionFromReportTypeOrLocation (st : Status) (group : SyntaxGroup) : Status :=
  match group with
  | SyntaxGroup.METAR => (st.setReportType ReportType.METAR).setState State.CORRECTION
  | SyntaxGroup.SPECI => (st.setReportType ReportType.METAR).setState State.CORRECTION
  | SyntaxGroup.TAF => (st.setReportType ReportType.TAF).setState State.CORRECTION
  | SyntaxGroup.LOCATION => st.setState State.REPORT_TIME
  | _ => st.setError Error.EXPECTED_REPORT_TYPE_OR_LOCATION

/-- Member `Status::transitionFromCorrecton` (metaf.h:3546-3569): on `AMD`
the state is first set to `LOCATION` and then, when the report type is
not TAF, `setError` overrides the state with `ERROR`. -/
def transitionFromCorrecton (st : Status) (group : SyntaxGroup) : Status :=
  match group with
  | SyntaxGroup.AMD =>
      let st' := st.setState State.LOCATION
      if st'.reportType ≠ ReportType.TAF then st'.setError Error.AMD_ALLOWED_IN_TAF_ONLY
      else st'
  | SyntaxGroup.COR => st.setState State.LOCATION
  | SyntaxGroup.LOCATION => st.setState State.REPORT_TIME
  | _ => st.setError Error.EXPECTED_LOCATION

/-- Member `Status::transitionFromReportTime` (metaf.h:3571-3601). -/
def transitionFromReportTime (st : Status) (group : SyntaxGroup) : Status :=
  match group with
  | SyntaxGroup.REPORT_TIME =>
      if st.reportType = ReportType.METAR then st.setState State.REPORT_BODY_BEGIN_METAR
      else st.setState State.TIME_SPAN
  | SyntaxGroup.TIME_SPAN =>
      if st.reportType = ReportType.TAF then st.setState State.REPORT_BODY_BEGIN_TAF
      else st.setError Error.EXPECTED_REPORT_TIME
  | SyntaxGroup.NIL => st.setState State.NIL
  | _ => st.setError Error.EXPECTED_REPORT_TIME

/-- Member `Status::transitionFromTimeSpan` (metaf.h:3603-3627). -/
def transitionFromTimeSpan (st : Status) (group : SyntaxGroup) : Status :=
  match group with
  | SyntaxGroup.TIME_SPAN =>
      (st.setReportType ReportType.TAF).setState State.REPORT_BODY_BEGIN_TAF
  | SyntaxGroup.NIL => st.setState State.NIL
  | _ =>
      if st.reportType = ReportType.UNKNOWN then
        (st.setReportType ReportType.METAR).setState
          State.REPORT_BODY_BEGIN_METAR_REPEAT_PARSE
      else st.setError Error.EXPECTED_TIME_SPAN

/-- Member `Status::transitionFromReportBodyBeginMetar` (metaf.h:3629-3655). -/
def transitionFromReportBodyBeginMetar (st : Status) (group : SyntaxGroup) : Status :=
  match group with
  | SyntaxGroup.NIL => st.setState State.NIL
  | SyntaxGroup.CNL => st.setError Error.CNL_ALLOWED_IN_TAF_ONLY
  | SyntaxGroup.RMK => st.setState State.REMARK_METAR
  | SyntaxGroup.MAINTENANCE_INDICATOR => st.setState State.MAINTENANCE_INDICATOR
  | _ => st.setState State.REPORT_BODY_METAR

/-- Member `Status::transitionFromReportBodyMetar` (metaf.h:3657-3679). -/
def transitionFromReportBodyMetar (st : Status) (group : SyntaxGroup) : Status :=
  match group with
  | SyntaxGroup.RMK => st.setState State.REMARK_METAR
  | SyntaxGroup.MAINTENANCE_INDICATOR => st.setState State.MAINTENANCE_INDICATOR
  | SyntaxGroup.NIL => st.setError Error.UNEXPECTED_NIL_OR_CNL_IN_REPORT_BODY
  | SyntaxGroup.CNL => st.setError Error.UNEXPECTED_NIL_OR_CNL_IN_REPORT_BODY
  | _ => st

/-- Member `Status::transitionFromReportBodyBeginTaf` (metaf.h:3681-3707). -/
def transitionFromReportBodyBeginTaf (st : Status) (group : SyntaxGroup) : Status :=
  match group with
  | SyntaxGroup.NIL => st.setState State.NIL
  | SyntaxGroup.CNL => st.setState State.CNL
  | SyntaxGroup.RMK => st.setState State.REMARK_TAF
  | SyntaxGroup.MAINTENANCE_INDICATOR =>
      st.setError Error.MAINTENANCE_INDICATOR_ALLOWED_IN_METAR_ONLY
  | _ => st.setState State.REPORT_BODY_TAF

/-- Member `Status::transitionFromReportBodyTaf` (metaf.h:3709-3731). -/
def transitionFromReportBodyTaf (st : Status) (group : SyntaxGroup) : Status :=
  match group with
  | SyntaxGroup.RMK => st.setState State.REMARK_TAF
  | SyntaxGroup.NIL => st.setError Error.UNEXPECTED_NIL_OR_CNL_IN_REPORT_BODY
  | SyntaxGroup.CNL => st.setError Error.UNEXPECTED_NIL_OR_CNL_IN_REPORT_BODY
  | SyntaxGroup.MAINTENANCE_INDICATOR =>
      st.setError Error.MAINTENANCE_INDICATOR_ALLOWED_IN_METAR_ONLY
  | _ => st

/-- Member `Status::transition` (metaf.h:3442-3517): dispatch on the
current state.  The C++ switch covers every state; there is no reachable
`default` branch. -/
def transition (st : Status) (group : SyntaxGroup) : Status :=
  match st.state with
  | State.REPORT_TYPE_OR_LOCATION => st.transitionFromReportTypeOrLocation group
  | State.CORRECTION => st.transitionFromCorrecton group
  | State.LOCATION =>
      if group = SyntaxGroup.LOCATION then st.setState State.REPORT_TIME
      else st.setError Error.EXPECTED_LOCATION
  | State.REPORT_TIME => st.transitionFromReportTime group
  | State.TIME_SPAN => st.transitionFromTimeSpan group
  | State.REPORT_BODY_BEGIN_METAR => st.transitionFromReportBodyBeginMetar group
  | State.REPORT_BODY_BEGIN_METAR_REPEAT_PARSE => st.transitionFromReportBodyBeginMetar group
  | State.REPORT_BODY_METAR => st.transitionFromReportBodyMetar group
  | State.REPORT_BODY_BEGIN_TAF => st.transitionFromReportBodyBeginTaf group
  | State.REPORT_BODY_TAF => st.transitionFromReportBodyTaf group
  | State.REMARK_METAR =>
      if group = SyntaxGroup.MAINTENANCE_INDICATOR then st.setState State.MAINTENANCE_INDICATOR
      else st
  | State.REMARK_TAF =>
      if group = SyntaxGroup.MAINTENANCE_INDICATOR then
        st.setError Error.MAINTENANCE_INDICATOR_ALLOWED_IN_METAR_ONLY
      else st
  | State.MAINTENANCE_INDICATOR => st.setError Error.UNEXPECTED_GROUP_AFTER_MAINTENANCE_INDICATOR
  | State.NIL => st.setError Error.UNEXPECTED_GROUP_AFTER_NIL
  | State.CNL => st.setError Error.UNEXPECTED_GROUP_AFTER_CNL
  | State.ERROR => st

/-- Member `Status::finalTransition` (metaf.h:3733-3765): run at end of
input; non-terminal states produce `EMPTY_REPORT` or
`UNEXPECTED_REPORT_END`. -/
def finalTransition (st : Status) : Status :=
  match st.state with
  | State.REPORT_BODY_METAR => st
  | State.REPORT_BODY_TAF => st
  | State.REMARK_METAR => st
  | State.REMARK_TAF => st
  | State.MAINTENANCE_INDICATOR => st
  | State.NIL => st
  | State.CNL => st
  | State.ERROR => st
  | State.REPORT_TYPE_OR_LOCATION => st.setError Error.EMPTY_REPORT
  | State.CORRECTION => st.setError Error.UNEXPECTED_REPORT_END
  | State.LOCATION => st.setError Error.UNEXPECTED_REPORT_END
  | State.REPORT_TIME => st.setError Error.UNEXPECTED_REPORT_END
  | State.TIME_SPAN => st.setError Error.UNEXPECTED_REPORT_END
  | State.REPORT_BODY_BEGIN_METAR => st.setError Error.UNEXPECTED_REPORT_END
  | State.REPORT_BODY_BEGIN_METAR_REPEAT_PARSE => st.setError Error.UNEXPECTED_REPORT_END
  | State.REPORT_BODY_BEGIN_TAF => st.setError Error.UNEXPECTED_REPORT_END

end Status

/-! Character and string helpers shared by the recognizers. -/

/-- Character `c` satisfies the regex class `[0-9]` (the check of
`strToUint`, metaf.h:1431). -/
def charIsDigit (c : Char) : Prop :=
  '0' ≤ c ∧ c ≤ '9'

instance (c : Char) : Decidable (charIsDigit c) := by
  unfold charIsDigit; infer_instance

/-- Character `c` satisfies the regex class `[A-Z]`
(used by `LocationGroup::parse`, metaf.h:2251). -/
def charIsUpper (c : Char) : Prop :=
  'A' ≤ c ∧ c ≤ 'Z'

instance (c : Char) : Decidable (charIsUpper c) := by
  unfold charIsUpper; infer_instance

/-- Indexing `str[i]` of a C++ string; the callers below only use it
behind explicit length guards, as the source does. -/
def charAt (s : String) (i : Nat) : Char :=
  s.data.getD i (Char.ofNat 0)

/-- Digit-accumulation loop of `metaf::strToUint` (metaf.h:1430-1434). -/
def strToUintAux : List Char → Nat → Option Nat
  | [], value => some value
  | c :: rest, value =>
      if c < '0' ∨ '9' < c then none
      else strToUintAux rest (value * 10 + (c.toNat - '0'.toNat))

/-- Function `metaf::strToUint` (metaf.h:1423-1436): reads `digits`
decimal digits of `str` starting at `startPos`. -/
def strToUint (str : String) (startPos digits : Nat) : Option Nat :=
  if str.data = [] ∨ digits = 0 ∨ startPos + digits > str.data.length then none
  else strToUintAux ((str.data.drop startPos).take digits) 0

/-! Primitive value type `MetafTime`. -/

/-- Class `metaf::MetafTime` (metaf.h:128-148). -/
structure MetafTime where
  dayValue : Option Nat
  hourValue : Nat
  minuteValue : Nat
  deriving DecidableEq, Repr

namespace MetafTime

/-- Member `MetafTime::fromStringDDHHMM` (metaf.h:1471-1495). -/
def fromStringDDHHMM (s : String) : Option MetafTime :=
  if s.data.length = 4 then
    match strToUint s 0 2, strToUint s 2 2 with
    | some hour, some minute => some ⟨none, hour, minute⟩
    | _, _ => none
  else if s.data.length = 6 then
    match strToUint s 0 2, strToUint s 2 2, strToUint s 4 2 with
    | some day, some hour, some minute => some ⟨some day, hour, minute⟩
    | _, _, _ => none
  else none

/-- Member `MetafTime::fromStringDDHH` (metaf.h:1497-1508). -/
def fromStringDDHH (s : String) : Option MetafTime :=
  if s.data.length ≠ 4 then none
  else
    match strToUint s 0 2, strToUint s 2 2 with
    | some day, some hour => some ⟨some day, hour, 0⟩
    | _, _ => none

/-- Member `MetafTime::isValid` (metaf.h:1510-1515). -/
def isValid (t : MetafTime) : Bool :=
  if t.dayValue.getD 31 > 31 ∨ t.dayValue.getD 31 = 0 then false
  else if t.hourValue > 24 then false
  else if t.minuteValue > 59 then false
  else true

end MetafTime

/-! Group recognizers needed by the report-level claims: `FixedGroup`,
`LocationGroup`, `ReportTimeGroup`, `TrendGroup` are the only variant
alternatives that `getSyntaxGroup` (metaf.h:3243-3268) maps to a
syntax group other than `OTHER`. -/

/-- Enumeration `FixedGroup::Type` (metaf.h:516-542). -/
inductive FixedGroupType where
  | METAR
  | SPECI
  | TAF
  | AMD
  | NIL
  | CNL
  | COR
  | AUTO
  | R_SNOCLO
  | CAVOK
  | NSW
  | RMK
  | WSCONDS
  | MAINTENANCE_INDICATOR
  | AO1
  | AO2
  | NOSPECI
  | PRESFR
  | PRESRR
  | RVRNO
  | PWINO
  | PNO
  | FZRANO
  | TSNO
  | SLPNO
  deriving DecidableEq, Repr, Fintype

/-- Class `metaf::FixedGroup` (metaf.h:514-553). -/
structure FixedGroup where
  t : FixedGroupType
  deriving DecidableEq, Repr

namespace FixedGroup

/-- Member `FixedGroup::parse` (metaf.h:2192-2238). -/
def parse (group : String) (reportPart : ReportPart) : Option FixedGroup :=
  if reportPart = ReportPart.HEADER ∧ group = "METAR" then some ⟨FixedGroupType.METAR⟩
  else if reportPart = ReportPart.HEADER ∧ group = "SPECI" then some ⟨FixedGroupType.SPECI⟩
  else if reportPart = ReportPart.HEADER ∧ group = "TAF" then some ⟨FixedGroupType.TAF⟩
  else if reportPart = ReportPart.HEADER ∧ group = "AMD" then some ⟨FixedGroupType.AMD⟩
  else if (reportPart = ReportPart.HEADER ∨ reportPart = ReportPart.METAR) ∧ group = "COR" then
    some ⟨FixedGroupType.COR⟩
  else if (reportPart = ReportPart.HEADER ∨ reportPart = ReportPart.METAR ∨
      reportPart = ReportPart.TAF) ∧ group = "NIL" then some ⟨FixedGroupType.NIL⟩
  else if (reportPart = ReportPart.HEADER ∨ reportPart = ReportPart.METAR ∨
      reportPart = ReportPart.TAF) ∧ group = "CNL" then some ⟨FixedGroupType.CNL⟩
  else if reportPart = ReportPart.METAR ∧ group = "AUTO" then some ⟨FixedGroupType.AUTO⟩
  else if reportPart = ReportPart.METAR ∧ group = "SNOCLO" then some ⟨FixedGroupType.R_SNOCLO⟩
  else if reportPart = ReportPart.METAR ∧ group = "R/SNOCLO" then some ⟨FixedGroupType.R_SNOCLO⟩
  else if reportPart = ReportPart.TAF ∧ group = "WSCONDS" then some ⟨FixedGroupType.WSCONDS⟩
  else if (reportPart = ReportPart.METAR ∨ reportPart = ReportPart.TAF) ∧ group = "CAVOK" then
    some ⟨FixedGroupType.CAVOK⟩
  else if (reportPart = ReportPart.METAR ∨ reportPart = ReportPart.TAF) ∧ group = "NSW" then
    some ⟨FixedGroupType.NSW⟩
  else if (reportPart = ReportPart.METAR ∨ reportPart = ReportPart.TAF) ∧ group = "RMK" then
    some ⟨FixedGroupType.RMK⟩
  else if reportPart = ReportPart.RMK ∧ group = "AO1" then some ⟨FixedGroupType.AO1⟩
  else if reportPart = ReportPart.RMK ∧ group = "AO2" then some ⟨FixedGroupType.AO2⟩
  else if reportPart = ReportPart.RMK ∧ group = "NOSPECI" then some ⟨FixedGroupType.NOSPECI⟩
  else if reportPart = ReportPart.RMK ∧ group = "PRESFR" then some ⟨FixedGroupType.PRESFR⟩
  else if reportPart = ReportPart.RMK ∧ group = "PRESRR" then some ⟨FixedGroupType.PRESRR⟩
  else if reportPart = ReportPart.RMK ∧ group = "RVRNO" then some ⟨FixedGroupType.RVRNO⟩
  else if reportPart = ReportPart.RMK ∧ group = "PWINO" then some ⟨FixedGroupType.PWINO⟩
  else if reportPart = ReportPart.RMK ∧ group = "PNO" then some ⟨FixedGroupType.PNO⟩
  else if reportPart = ReportPart.RMK ∧ group = "FZRANO" then some ⟨FixedGroupType.FZRANO⟩
  else if reportPart = ReportPart.RMK ∧ group = "TSNO" then some ⟨FixedGroupType.TSNO⟩
  else if reportPart = ReportPart.RMK ∧ group = "SLPNO" then some ⟨FixedGroupType.SLPNO⟩
  else if group = "$" then some ⟨FixedGroupType.MAINTENANCE_INDICATOR⟩
  else none

end FixedGroup

/-- Class `metaf::LocationGroup` (metaf.h:555-568): a 4-character
location code. -/
structure LocationGroup where
  location : String
  deriving DecidableEq, Repr

namespace LocationGroup

/-- Member `LocationGroup::parse` (metaf.h:2246-2257): only in HEADER,
full match of the regex `[A-Z][A-Z0-9]{3}`. -/
def parse (group : String) (reportPart : ReportPart) : Option LocationGroup :=
  if reportPart ≠ ReportPart.HEADER then none
  else
    match group.data with
    | [c0, c1, c2, c3] =>
        if charIsUpper c0 ∧ (charIsUpper c1 ∨ charIsDigit c1) ∧
            (charIsUpper c2 ∨ charIsDigit c2) ∧ (charIsUpper c3 ∨ charIsDigit c3) then
          some ⟨group⟩
        else none
    | _ => none

end LocationGroup

/-- Class `metaf::ReportTimeGroup` (metaf.h:570-581). -/
structure ReportTimeGroup where
  t : MetafTime
  deriving DecidableEq, Repr

namespace ReportTimeGroup

/-- Member `ReportTimeGroup::parse` (metaf.h:2265-2279): only in HEADER,
full match of the regex `\d\d\d\d\d\dZ`, then `MetafTime::fromStringDDHHMM`
on the six digits; the day must be present. -/
def parse (group : String) (reportPart : ReportPart) : Option ReportTimeGroup :=
  if reportPart ≠ ReportPart.HEADER then none
  else if group.data.length = 7 ∧ ((group.data.take 6).all fun c => decide (charIsDigit c)) ∧
      charAt group 6 = 'Z' then
    match MetafTime.fromStringDDHHMM ⟨group.data.take 6⟩ with
    | some tm => if tm.dayValue.isSome then some ⟨tm⟩ else none
    | none => none
  else none

end ReportTimeGroup

/-- Enumeration `TrendGroup::Type` (metaf.h:585-593). -/
inductive TrendType where
  | NONE
  | NOSIG
  | BECMG
  | TEMPO
  | INTER
  | FROM
  | TIME_SPAN
  deriving DecidableEq, Repr

/-- Enumeration `TrendGroup::Probability` (metaf.h:594-598). -/
inductive TrendProbability where
  | NONE
  | PROB_30
  | PROB_40
  deriving DecidableEq, Repr

/-- Class `metaf::TrendGroup` (metaf.h:583-641). -/
structure TrendGroup where
  t : TrendType
  prob : TrendProbability
  tFrom : Option MetafTime
  tTill : Option MetafTime
  tAt : Option MetafTime
  deriving DecidableEq, Repr

namespace TrendGroup

/-- Constructor `TrendGroup(Type)` (metaf.h:617). -/
def ofType (ty : TrendType) : TrendGroup :=
  ⟨ty, TrendProbability.NONE, none, none, none⟩

/-- Constructor `TrendGroup(Probability)` (metaf.h:618). -/
def ofProbability (p : TrendProbability) : TrendGroup :=
  ⟨TrendType.NONE, p, none, none, none⟩

/-- Member `TrendGroup::fromTimeSpan` (metaf.h:2330-2345): full match of
the regex `(\d\d\d\d)/(\d\d\d\d)`, both halves read with
`MetafTime::fromStringDDHH`. -/
def fromTimeSpan (s : String) : Option TrendGroup :=
  if s.data.length = 9 ∧ ((s.data.take 4).all fun c => decide (charIsDigit c)) ∧
      charAt s 4 = '/' ∧ (((s.data.drop 5).take 4).all fun c => decide (charIsDigit c)) then
    match MetafTime.fromStringDDHH ⟨s.data.take 4⟩,
        MetafTime.fromStringDDHH ⟨(s.data.drop 5).take 4⟩ with
    | some tFrom, some tTill =>
        some ⟨TrendType.TIME_SPAN, TrendProbability.NONE, some tFrom, some tTill, none⟩
    | _, _ => none
  else none

/-- Member `TrendGroup::fromFm` (metaf.h:2347-2359): full match of the
regex `FM\d\d\d\d\d\d`. -/
def fromFm (s : String) : Option TrendGroup :=
  if s.data.length = 8 ∧ charAt s 0 = 'F' ∧ charAt s 1 = 'M' ∧
      ((s.data.drop 2).all fun c => decide (charIsDigit c)) then
    match MetafTime.fromStringDDHHMM ⟨s.data.drop 2⟩ with
    | some time => some ⟨TrendType.FROM, TrendProbability.NONE, some time, none, none⟩
    | none => none
  else none

/-- Member `TrendGroup::fromTrendTime` (metaf.h:2361-2384): full match of
the regex `([FTA][MLT])(\d\d\d\d)`; only the prefixes `FM`, `TL` and `AT`
produce a group. -/
def fromTrendTime (s : String) : Option TrendGroup :=
  if s.data.length = 6 ∧ (charAt s 0 = 'F' ∨ charAt s 0 = 'T' ∨ charAt s 0 = 'A') ∧
      (charAt s 1 = 'M' ∨ charAt s 1 = 'L' ∨ charAt s 1 = 'T') ∧
      ((s.data.drop 2).all fun c => decide (charIsDigit c)) then
    match MetafTime.fromStringDDHHMM ⟨s.data.drop 2⟩ with
    | some time =>
        if charAt s 0 = 'F' ∧ charAt s 1 = 'M' then
          some ⟨TrendType.NONE, TrendProbability.NONE, some time, none, none⟩
        else if charAt s 0 = 'T' ∧ charAt s 1 = 'L' then
          some ⟨TrendType.NONE, TrendProbability.NONE, none, some time, none⟩
        else if charAt s 0 = 'A' ∧ charAt s 1 = 'T' then
          some ⟨TrendType.NONE, TrendProbability.NONE, none, none, some time⟩
        else none
    | none => none
  else none

/-- Member `TrendGroup::parse` (metaf.h:2287-2317). -/
def parse (group : String) (reportPart : ReportPart) : Option TrendGroup :=
  if (reportPart = ReportPart.METAR ∨ reportPart = ReportPart.TAF) ∧ group = "BECMG" then
    some (ofType TrendType.BECMG)
  else if (reportPart = ReportPart.METAR ∨ reportPart = ReportPart.TAF) ∧ group = "TEMPO" then
    some (ofType TrendType.TEMPO)
  else if (reportPart = ReportPart.METAR ∨ reportPart = ReportPart.TAF) ∧ group = "INTER" then
    some (ofType TrendType.INTER)
  else if reportPart = ReportPart.TAF ∧ group = "PROB30" then
    some (ofProbability TrendProbability.PROB_30)
  else if reportPart = ReportPart.TAF ∧ group = "PROB40" then
    some (ofProbability TrendProbability.PROB_40)
  else if reportPart = ReportPart.TAF ∧ (fromTimeSpan group).isSome then
    fromTimeSpan group
  else if reportPart = ReportPart.TAF ∧ (fromFm group).isSome then
    fromFm group
  else if reportPart = ReportPart.METAR ∧ group = "NOSIG" then
    some (ofType TrendType.NOSIG)
  else if reportPart = ReportPart.METAR ∧ (fromTrendTime group).isSome then
    fromTrendTime group
  else if (reportPart = ReportPart.HEADER ∨ reportPart = ReportPart.TAF) ∧
      (fromTimeSpan group).isSome then
    fromTimeSpan group
  else none

/-- Member `TrendGroup::isTimeSpanGroup` (metaf.h:2457-2465). -/
def isTimeSpanGroup (g : TrendGroup) : Bool :=
  g.t = TrendType.TIME_SPAN ∧ g.prob = TrendProbability.NONE ∧
    g.tFrom.isSome ∧ g.tTill.isSome ∧ ¬g.tAt.isSome

end TrendGroup

/-! Primitive value type `Runway` and the wind-shear low-layer group. -/

/-- Enumeration `Runway::Designator` (metaf.h:90-95). -/
inductive RunwayDesignator where
  | NONE
  | LEFT
  | CENTER
  | RIGHT
  deriving DecidableEq, Repr

/-- Class `metaf::Runway` (metaf.h:88-126). -/
structure Runway where
  rNumber : Nat
  rDesignator : RunwayDesignator
  deriving DecidableEq, Repr

namespace Runway

/-- Member `Runway::isValid` (metaf.h:98-102); `maxRunwayNumber` is 36,
`allRunwaysNumber` 88 and `messageRepetitionNumber` 99. -/
def isValid (r : Runway) : Bool :=
  r.rNumber ≤ 36 ∨ (r.rNumber = 88 ∧ r.rDesignator = RunwayDesignator.NONE) ∨
    (r.rNumber = 99 ∧ r.rDesignator = RunwayDesignator.NONE)

/-- Member `Runway::isAllRunways` (metaf.h:103-105). -/
def isAllRunways (r : Runway) : Bool :=
  r.rNumber = 88 ∧ r.rDesignator = RunwayDesignator.NONE

/-- Member `Runway::makeAllRunways` (metaf.h:112-116). -/
def makeAllRunways : Runway :=
  ⟨88, RunwayDesignator.NONE⟩

/-- Member `Runway::designatorFromChar` (metaf.h:1460-1467). -/
def designatorFromChar (c : Char) : Option RunwayDesignator :=
  if c = 'R' then some RunwayDesignator.RIGHT
  else if c = 'C' then some RunwayDesignator.CENTER
  else if c = 'L' then some RunwayDesignator.LEFT
  else none

/-- Member `Runway::fromString` (metaf.h:1439-1458): matches
`R(WY)?NN[RLC]?`; the `RWY` prefix is honoured only when `enableRwy`. -/
def fromString (s : String) (enableRwy : Bool := false) : Option Runway :=
  if s.data.length < 3 then none
  else if charAt s 0 ≠ 'R' then none
  else
    let numPos := if enableRwy ∧ charAt s 1 = 'W' ∧ charAt s 2 = 'Y' then 3 else 1
    match strToUint s numPos 2 with
    | none => none
    | some rwyNum =>
        let dsgPos := numPos + 2
        if s.data.length > dsgPos + 1 then none
        else if s.data.length > dsgPos then
          match designatorFromChar (charAt s dsgPos) with
          | none => none
          | some designator => some ⟨rwyNum, designator⟩
        else some ⟨rwyNum, RunwayDesignator.NONE⟩

end Runway

/-- Class `metaf::PlainTextGroup` (metaf.h:494-512): fallback group
holding at most `textMaxLength` = 15 characters of the token. -/
structure PlainTextGroup where
  text : String
  deriving DecidableEq, Repr

namespace PlainTextGroup

/-- Constructor `PlainTextGroup(const std::string &)` (metaf.h:500-502):
the token text truncated to 15 characters. -/
def ofString (s : String) : PlainTextGroup :=
  ⟨⟨s.data.take 15⟩⟩

/-- Member `PlainTextGroup::toString` (metaf.h:496). -/
def toString (g : PlainTextGroup) : String :=
  g.text

/-- Member `PlainTextGroup::isValid` (metaf.h:497): the stored text is
nonempty. -/
def isValid (g : PlainTextGroup) : Bool :=
  g.text ≠ ""

end PlainTextGroup

/-- Enumeration `WindShearLowLayerGroup::Status` (metaf.h:1007-1011). -/
inductive WindShearLowLayerStatus where
  | COMPLETE
  | INCOMPLETE_WS
  | INCOMPLETE_WS_ALL
  deriving DecidableEq, Repr

/-- Class `metaf::WindShearLowLayerGroup` (metaf.h:997-1014); the default
constructor leaves the default runway (number 0, no designator) and
status `INCOMPLETE_WS`. -/
structure WindShearLowLayerGroup where
  rw : Runway
  status : WindShearLowLayerStatus
  deriving DecidableEq, Repr

/-- Variant `metaf::Group` (metaf.h:53-72), restricted to the six
alternatives whose values occur in the claims below.  The twelve
remaining alternatives (WindGroup, VisibilityGroup, CloudGroup,
WeatherGroup, TemperatureGroup, TemperatureForecastGroup, PressureGroup,
RunwayVisualRangeGroup, RunwayStateGroup, RainfallGroup, SeaSurfaceGroup,
ColourCodeGroup) are classified as `SyntaxGroup::OTHER` by
`getSyntaxGroup` and are never inspected by any claim. -/
inductive Group where
  | plainText (g : PlainTextGroup)
  | fixed (g : FixedGroup)
  | location (g : LocationGroup)
  | reportTime (g : ReportTimeGroup)
  | trend (g : TrendGroup)
  | windShearLowLayer (g : WindShearLowLayerGroup)
  deriving DecidableEq, Repr

namespace WindShearLowLayerGroup

/-- Member `WindShearLowLayerGroup::isValid` (metaf.h:1000). -/
def isValid (g : WindShearLowLayerGroup) : Bool :=
  g.rw.isValid ∧ g.status = WindShearLowLayerStatus.COMPLETE

/-- Member `WindShearLowLayerGroup::parse` (metaf.h:3115-3123): the
token `WS` in a METAR body seeds an incomplete group. -/
def parse (group : String) (reportPart : ReportPart) : Option WindShearLowLayerGroup :=
  if reportPart ≠ ReportPart.METAR then none
  else if group = "WS" then some ⟨⟨0, RunwayDesignator.NONE⟩, WindShearLowLayerStatus.INCOMPLETE_WS⟩
  else none

/-- Member `WindShearLowLayerGroup::combine` (metaf.h:3125-3158): the
follow-up must be a PlainTextGroup; its text is matched against `ALL`,
a runway designation with optional `RWY` prefix, or `RWY`. -/
def combine (g : WindShearLowLayerGroup) (nextGroup : Group) : Option Group :=
  match nextGroup with
  | Group.plainText p =>
      let nextGroupStr := p.toString
      match g.status with
      | WindShearLowLayerStatus.COMPLETE => none
      | WindShearLowLayerStatus.INCOMPLETE_WS =>
          if nextGroupStr = "ALL" then
            some (Group.windShearLowLayer { g with status := WindShearLowLayerStatus.INCOMPLETE_WS_ALL })
          else
            match Runway.fromString nextGroupStr true with
            | some runway =>
                some (Group.windShearLowLayer
                  { g with status := WindShearLowLayerStatus.COMPLETE, rw := runway })
            | none => none
      | WindShearLowLayerStatus.INCOMPLETE_WS_ALL =>
          if nextGroupStr = "RWY" then
            some (Group.windShearLowLayer
              { g with status := WindShearLowLayerStatus.COMPLETE, rw := Runway.makeAllRunways })
          else none
  | _ => none

end WindShearLowLayerGroup

/-- Function `metaf::getSyntaxGroup` (metaf.h:3243-3268): classifies a
parsed group into the compact syntax-category set used by the state
machine. -/
def getSyntaxGroup (group : Group) : SyntaxGroup :=
  match group with
  | Group.fixed fg =>
      match fg.t with
      | FixedGroupType.METAR => SyntaxGroup.METAR
      | FixedGroupType.SPECI => SyntaxGroup.SPECI
      | FixedGroupType.TAF => SyntaxGroup.TAF
      | FixedGroupType.COR => SyntaxGroup.COR
      | FixedGroupType.AMD => SyntaxGroup.AMD
      | FixedGroupType.NIL => SyntaxGroup.NIL
      | FixedGroupType.CNL => SyntaxGroup.CNL
      | FixedGroupType.RMK => SyntaxGroup.RMK
      | FixedGroupType.MAINTENANCE_INDICATOR => SyntaxGroup.MAINTENANCE_INDICATOR
      | _ => SyntaxGroup.OTHER
  | Group.location _ => SyntaxGroup.LOCATION
  | Group.reportTime _ => SyntaxGroup.REPORT_TIME
  | Group.trend tg => if tg.isTimeSpanGroup then SyntaxGroup.TIME_SPAN else SyntaxGroup.OTHER
  | Group.plainText _ => SyntaxGroup.OTHER
  | Group.windShearLowLayer _ => SyntaxGroup.OTHER

/-- Head of the dispatcher chain `GenericGroupParser::parse`
(metaf.h:1093-1114) for the concrete `Parser` instantiation: the
alternatives are probed in variant declaration order (the fallback
`PlainTextGroup` is skipped), so `FixedGroup`, `LocationGroup`,
`ReportTimeGroup` and `TrendGroup` are probed first. -/
def parseKnownGroup (s : String) (part : ReportPart) : Option Group :=
  match FixedGroup.parse s part with
  | some fg => some (Group.fixed fg)
  | none =>
      match LocationGroup.parse s part with
      | some lg => some (Group.location lg)
      | none =>
          match ReportTimeGroup.parse s part with
          | some rg => some (Group.reportTime rg)
          | none =>
              match TrendGroup.parse s part with
              | some tg => some (Group.trend tg)
              | none => none

/-- Composition `getSyntaxGroup(GenericGroupParser::parse(s, part))` of
the concrete `Parser` instantiation (metaf.h:1250, 3300).  The dispatcher
probes the variant alternatives in declaration order; every alternative
after `TrendGroup` (WindGroup … ColourCodeGroup, and the PlainTextGroup
fallback) is mapped to `SyntaxGroup::OTHER` by `getSyntaxGroup`
(metaf.h:3243-3268), so the composition is fully determined by the four
recognizers of `parseKnownGroup`. -/
def getSyntaxGroupOfToken (s : String) (part : ReportPart) : SyntaxGroup :=
  match parseKnownGroup s part with
  | some g => getSyntaxGroup g
  | none => SyntaxGroup.OTHER

/-! The report-level parser.  `GenericParser` (metaf.h:1122-1247) is a
C++ template over a group parser class and a syntax-group getter
function; the combiner is invoked through the group type's `combine`
member.  `ParserParams` bundles exactly these parameters, so every
theorem below quantified over `ParserParams` holds for each
instantiation of the template, in particular for `metaf::Parser`
(metaf.h:1250). -/

/-- Template parameters of `GenericParser` (metaf.h:1122-1123) together
with the per-group combiner dispatched by `combineWithLastGroup`
(metaf.h:3332-3334): `parse` is `GenericGroupParser::parse`, `getSyntax`
is `SyntaxGroupGetter`, and `combine` is `previousGroup.combine(current)`. -/
structure ParserParams (G : Type) where
  parse : String → ReportPart → G
  getSyntax : G → SyntaxGroup
  combine : G → G → Option G

/-- Struct `GenericParser::Result` (metaf.h:1144-1148). -/
structure Result (G : Type) where
  reportType : ReportType
  error : Error
  groups : List G
  deriving Repr

namespace GenericParser

variable {G : Type}

/-- Member `GenericParser::getLastGroup` (metaf.h:3337-3345). -/
def getLastGroup (groups : List G) : Option G :=
  groups.getLast?

/-- Member `GenericParser::combineWithLastGroup` (metaf.h:3324-3335). -/
def combineWithLastGroup (P : ParserParams G) (lastGroup : Option G) (group : G) : Option G :=
  match lastGroup with
  | none => none
  | some lg => P.combine lg group

/-- Member `GenericParser::saveToResult` for groups (metaf.h:3357-3369):
a successful combine replaces the last accumulated group, otherwise the
new group is appended. -/
def saveToResult (groups : List G) (group : G) (combinedGroup : Option G) : List G :=
  match combinedGroup with
  | some cg => groups.dropLast ++ [cg]
  | none => groups ++ [group]

/-- End-of-report detection of the token loop (metaf.h:3291-3294): a
token whose last character is `=` is the last consumed token, and the
`=` is dropped from it before parsing.  (`groupString.back()` is only
well-defined for a nonempty token; a token that is already empty is
skipped by the loop in any case.) -/
def checkEndMarker (tok : String) : Bool × String :=
  if tok ≠ "" ∧ tok.data.getLast? = some '=' then (true, ⟨tok.data.dropLast⟩) else (false, tok)

/-- Do-while parse/transition loop of `parseInternal` (metaf.h:3298-3301):
parse the token under the current report part, transition on its syntax
group, and re-parse once under the new state when the transition
requested a reparse.  One extra round is the exact behaviour of the
do-while loop: a transition performed from a reparse-requiring status
never requires a reparse again (`transition_no_reparse` below). -/
def parseAndTransition (P : ParserParams G) (st : Status) (groupString : String) : G × Status :=
  let group := P.parse groupString st.getReportPart
  let st1 := st.transition (P.getSyntax group)
  if st1.isReparseRequired then
    let group2 := P.parse groupString st1.getReportPart
    (group2, st1.transition (P.getSyntax group2))
  else (group, st1)

/-- Body of one iteration of the token loop of `parseInternal`
(metaf.h:3296-3309) for a nonempty group string: parse and transition,
combine with the last accumulated group, and save. -/
def processOneToken (P : ParserParams G) (st : Status) (groups : List G)
    (groupString : String) : Status × List G :=
  let gs := parseAndTransition P st groupString
  let combinedGroup := combineWithLastGroup P (getLastGroup groups) gs.1
  (gs.2, saveToResult groups gs.1 combinedGroup)

/-- Token loop of `GenericParser::parseInternal` (metaf.h:3289-3313):
iterates over the whitespace-delimited tokens while there are tokens
left, no end marker has been seen and no error is set; zero-length
group strings are skipped (metaf.h:3295). -/
def processTokens (P : ParserParams G) : Status → List G → List String → Status × List G
  | st, groups, [] => (st, groups)
  | st, groups, tok :: rest =>
      if st.isError then (st, groups)
      else
        let em := checkEndMarker tok
        let sg := if em.2 ≠ "" then processOneToken P st groups em.2 else (st, groups)
        if em.1 then sg else processTokens P sg.1 sg.2 rest

/-- Tail of `GenericParser::parseInternal` (metaf.h:3314-3322) applied to
a token list: run the token loop from the initial status, apply the
final transition, and save report type and error to the result. -/
def parseTokens (P : ParserParams G) (toks : List String) : Result G :=
  let r := processTokens P Status.init [] toks
  let stF := r.1.finalTransition
  ⟨stF.reportType, stF.error, r.2⟩

/-- Whitespace class `\s` of the delimiter regex (metaf.h:3279). -/
def charIsWs (c : Char) : Prop :=
  c = ' ' ∨ c = '\t' ∨ c = '\n' ∨ c = '\x0b' ∨ c = '\x0c' ∨ c = '\r'

instance (c : Char) : Decidable (charIsWs c) := by
  unfold charIsWs; infer_instance

/-- Splitter for the delimiter regex `\s+` (metaf.h:3279-3282),
splitting at each whitespace character.  The regex groups maximal
whitespace runs; splitting at every whitespace character additionally
yields zero-length tokens inside a run and at the borders, which the
token loop skips (metaf.h:3295) exactly like the zero-length group
string left by a lone `=`, so the parse result is unaffected. -/
def splitWsAux : List Char → List Char → List (List Char)
  | acc, [] => [acc.reverse]
  | acc, c :: cs =>
      if charIsWs c then acc.reverse :: splitWsAux [] cs else splitWsAux (c :: acc) cs

/-- Tokenization of the report into whitespace-delimited tokens
(metaf.h:3279-3282). -/
def tokenize (report : String) : List String :=
  (splitWsAux [] report.data).map fun cs => ⟨cs⟩

/-- Member `GenericParser::parse` (metaf.h:1156-1159). -/
def parse (P : ParserParams G) (report : String) : Result G :=
  parseTokens P (tokenize report)

/-! Instrumentation of the token loop for the stated invariants: the
following functions recompute, by the same recursion as `processTokens`,
the number of consumed (parsed) tokens, the number of successful
combines, and the report parts under which the dispatcher was invoked. -/

/-- Number of tokens of the list that the token loop actually parses
(nonempty group strings reached before an end marker or an error). -/
def countConsumed (P : ParserParams G) : Status → List G → List String → Nat
  | _, _, [] => 0
  | st, groups, tok :: rest =>
      if st.isError then 0
      else
        let em := checkEndMarker tok
        if em.2 ≠ "" then
          let sg := processOneToken P st groups em.2
          1 + (if em.1 then 0 else countConsumed P sg.1 sg.2 rest)
        else
          if em.1 then 0 else countConsumed P st groups rest

/-- Number of successful combines performed by the token loop
(iterations in which `combineWithLastGroup` returns a value and
`saveToResult` replaces the last group instead of appending). -/
def countCombines (P : ParserParams G) : Status → List G → List String → Nat
  | _, _, [] => 0
  | st, groups, tok :: rest =>
      if st.isError then 0
      else
        let em := checkEndMarker tok
        if em.2 ≠ "" then
          let gs := parseAndTransition P st em.2
          let combinedGroup := combineWithLastGroup P (getLastGroup groups) gs.1
          (if combinedGroup.isSome then 1 else 0) +
            (if em.1 then 0 else
              countCombines P gs.2 (saveToResult groups gs.1 combinedGroup) rest)
        else
          if em.1 then 0 else countCombines P st groups rest

/-- Report parts of the dispatch events of one token (metaf.h:3298-3301):
the part under which the token is parsed and, when a reparse is
required, the part under which it is re-parsed. -/
def tokenParts (P : ParserParams G) (st : Status) (groupString : String) : List ReportPart :=
  let group := P.parse groupString st.getReportPart
  let st1 := st.transition (P.getSyntax group)
  if st1.isReparseRequired then [st.getReportPart, st1.getReportPart] else [st.getReportPart]

/-- Report parts of all dispatch events of the token loop, in order. -/
def partsTrace (P : ParserParams G) : Status → List G → List String → List ReportPart
  | _, _, [] => []
  | st, groups, tok :: rest =>
      if st.isError then []
      else
        let em := checkEndMarker tok
        if em.2 ≠ "" then
          let sg := processOneToken P st groups em.2
          tokenParts P st em.2 ++ (if em.1 then [] else partsTrace P sg.1 sg.2 rest)
        else
          if em.1 then [] else partsTrace P st groups rest

end GenericParser

/-- Order of the report parts along a parse, as stated by the spec's
monotonicity invariant: HEADER before the METAR/TAF body, body before
remarks, and the terminal states (mapped to UNKNOWN) last. -/
def reportPartRank : ReportPart → Nat
  | ReportPart.HEADER => 0
  | ReportPart.METAR => 1
  | ReportPart.TAF => 1
  | ReportPart.RMK => 2
  | ReportPart.UNKNOWN => 3

/-- Order relation on report parts induced by `reportPartRank`. -/
abbrev partLE (a b : ReportPart) : Prop :=
  reportPartRank a ≤ reportPartRank b

instance : IsTrans ReportPart partLE :=
  ⟨fun _ _ _ => Nat.le_trans⟩

/-- Instantiation of the parser template at the syntax-category level:
the group parser returns the token's syntax category (the composition
`getSyntaxGroup` after `GenericGroupParser::parse`, embedded as
`getSyntaxGroupOfToken`), the getter is the identity, and the combiner
never combines.  The status fields (state, report type, error) computed
by the token loop under this instantiation coincide with those of
`metaf::Parser`, because the loop consults parsed groups only through
`SyntaxGroupGetter` (metaf.h:3300) and the combiner does not influence
the status. -/
def syntaxParams : ParserParams SyntaxGroup :=
  ⟨getSyntaxGroupOfToken, id, fun _ _ => none⟩

/-! Primitive value type `Distance`. -/

/-- Enumeration `Distance::Unit` (metaf.h:197-201). -/
inductive DistanceUnit where
  | METERS
  | STATUTE_MILES
  | FEET
  deriving DecidableEq, Repr

/-- Enumeration `Distance::Modifier` (metaf.h:202-206). -/
inductive DistanceModifier where
  | NONE
  | LESS_THAN
  | MORE_THAN
  deriving DecidableEq, Repr

/-- Class `metaf::Distance` (metaf.h:195-256): an optional integer part,
an optional fraction, a modifier and a unit. -/
structure Distance where
  distModifier : DistanceModifier
  distValueInt : Option Nat
  distValueNum : Option Nat
  distValueDen : Option Nat
  distUnit : DistanceUnit
  deriving DecidableEq, Repr

namespace Distance

/-- Member `Distance::isInteger` (metaf.h:212-215). -/
def isInteger (d : Distance) : Bool :=
  d.distValueInt.isSome ∧ ¬d.distValueNum.isSome ∧ ¬d.distValueDen.isSome

/-- Member `Distance::isFraction` (metaf.h:216-219). -/
def isFraction (d : Distance) : Bool :=
  ¬d.distValueInt.isSome ∧ d.distValueNum.isSome ∧ d.distValueDen.isSome

/-- Member `Distance::isValid` (metaf.h:227-231): a present denominator
or numerator must be nonzero. -/
def isValid (d : Distance) : Bool :=
  if d.distValueDen = some 0 then false
  else if d.distValueNum = some 0 then false
  else true

/-- Member `Distance::fromIntegerAndFraction` (metaf.h:1732-1746). -/
def fromIntegerAndFraction (integer fraction : Distance) : Option Distance :=
  if ¬integer.isValid ∨ ¬fraction.isValid ∨
      integer.distModifier ≠ DistanceModifier.NONE ∨
      fraction.distModifier ≠ DistanceModifier.NONE ∨
      integer.distUnit ≠ fraction.distUnit ∨
      ¬integer.isInteger ∨ ¬fraction.isFraction then none
  else some { integer with
    distValueNum := fraction.distValueNum
    distValueDen := fraction.distValueDen }

end Distance

/-! Primitive value type `Pressure`.  The C++ value is a float; it is
modelled as a rational, so the wire formula `value * 0.1 + base` becomes
the exact rational `value / 10 + base`. -/

/-- Enumeration `Pressure::Unit` (metaf.h:319-323). -/
inductive PressureUnit where
  | HECTOPASCAL
  | INCHES_HG
  | MM_HG
  deriving DecidableEq, Repr

/-- Class `metaf::Pressure` (metaf.h:317-339). -/
structure Pressure where
  pressureValue : Option ℚ
  pressureUnit : PressureUnit
  deriving DecidableEq, Repr

namespace Pressure

/-- Member `Pressure::fromSlpString` (metaf.h:1920-1934): matches
`SLP` followed by three decimal digits; the value is reconstructed in
hectopascal as `digits * 0.1 + base` with base 1000 below 500 and 900
otherwise. -/
def fromSlpString (s : String) : Option Pressure :=
  if s.data.length ≠ 6 then none
  else if charAt s 0 ≠ 'S' ∨ charAt s 1 ≠ 'L' ∨ charAt s 2 ≠ 'P' then none
  else
    match strToUint s 3 3 with
    | none => none
    | some pr =>
        let base : ℚ := if pr < 500 then 1000 else 900
        some ⟨some ((pr : ℚ) / 10 + base), PressureUnit.HECTOPASCAL⟩

end Pressure

/-! Primitive value type `Precipitation`, modelled with a rational value
(every value produced by `fromRunwayDeposits` is a small integer, exact
also in the C++ float). -/

/-- Enumeration `Precipitation::Status` (metaf.h:343-347). -/
inductive PrecipitationStatus where
  | NOT_REPORTED
  | REPORTED
  | RUNWAY_NOT_OPERATIONAL
  deriving DecidableEq, Repr

/-- Class `metaf::Precipitation` (metaf.h:341-381); the default
constructor yields status NOT_REPORTED and value 0.  The unit is always
millimetres for the functions modelled here. -/
structure Precipitation where
  precipStatus : PrecipitationStatus
  precipValue : ℚ
  deriving DecidableEq, Repr

namespace Precipitation

/-- Member `Precipitation::fromRunwayDeposits` (metaf.h:2000-2031): a
two-character string; `//` is not reported, two digits are interpreted
through the `Reserved` sentinels of Table 1079 (metaf.h:370-380). -/
def fromRunwayDeposits (s : String) : Option Precipitation :=
  if s.data.length ≠ 2 then none
  else if s = "//" then some ⟨PrecipitationStatus.NOT_REPORTED, 0⟩
  else
    match strToUint s 0 2 with
    | none => none
    | some dep =>
        if dep = 91 then none
        else if dep = 92 then some ⟨PrecipitationStatus.REPORTED, 100⟩
        else if dep = 93 then some ⟨PrecipitationStatus.REPORTED, 150⟩
        else if dep = 94 then some ⟨PrecipitationStatus.REPORTED, 200⟩
        else if dep = 95 then some ⟨PrecipitationStatus.REPORTED, 250⟩
        else if dep = 96 then some ⟨PrecipitationStatus.REPORTED, 300⟩
        else if dep = 97 then some ⟨PrecipitationStatus.REPORTED, 350⟩
        else if dep = 98 then some ⟨PrecipitationStatus.REPORTED, 400⟩
        else if dep = 99 then some ⟨PrecipitationStatus.RUNWAY_NOT_OPERATIONAL, 0⟩
        else some ⟨PrecipitationStatus.REPORTED, (dep : ℚ)⟩

end Precipitation

/-- Shape `SLPnnn` from the spec sentence for `Pressure::fromSlpString`:
six characters, prefix `SLP`, then three decimal digits. -/
def slpShape (s : String) : Prop :=
  s.data.length = 6 ∧ charAt s 0 = 'S' ∧ charAt s 1 = 'L' ∧ charAt s 2 = 'P' ∧
    charIsDigit (charAt s 3) ∧ charIsDigit (charAt s 4) ∧ charIsDigit (charAt s 5)

instance (s : String) : Decidable (slpShape s) := by
  unfold slpShape; infer_instance

/-- Numeric value of the three digits of an `SLPnnn` token. -/
def slpDigits (s : String) : Nat :=
  ((charAt s 3).toNat - '0'.toNat) * 100 + ((charAt s 4).toNat - '0'.toNat) * 10 +
    ((charAt s 5).toNat - '0'.toNat)

/-- Two-character decimal code string `nn` for a value below 100. -/
def twoDigitString (n : Nat) : String :=
  ⟨[Char.ofNat ('0'.toNat + n / 10), Char.ofNat ('0'.toNat + n % 10)]⟩

/-! Shared lemmas about the state machine. -/

set_option maxRecDepth 4000

/-- A transition performed from a status that requires a reparse never
requires a reparse again: the do-while loop of metaf.h:3298-3301 runs at
most twice per token. -/
lemma transition_no_reparse :
    ∀ (st : Status) (sg : SyntaxGroup),
      st.isReparseRequired = true → (st.transition sg).isReparseRequired = false := by
  decide

/-- Transitions never decrease the report-part rank. -/
lemma transition_rank_mono :
    ∀ (st : Status) (sg : SyntaxGroup),
      reportPartRank st.getReportPart ≤ reportPartRank (st.transition sg).getReportPart := by
  decide

/-- Transitions preserve the invariant that a set error implies the
`ERROR` state (the only error setter, `setError`, sets both). -/
lemma transition_error_state :
    ∀ (st : Status) (sg : SyntaxGroup),
      (st.error ≠ Error.NONE → st.state = State.ERROR) →
      ((st.transition sg).error ≠ Error.NONE → (st.transition sg).state = State.ERROR) := by
  decide

/-- The final transition leaves a status in the `ERROR` state unchanged. -/
lemma finalTransition_of_error_state :
    ∀ st : Status, st.state = State.ERROR → st.finalTransition = st := by
  decide

lemma data_eq_six {l : List Char} (h : l.length = 6) :
    ∃ a b c d e f, l = [a, b, c, d, e, f] := by
  rcases l with _ | ⟨a, l⟩
  · simp at h
  rcases l with _ | ⟨b, l⟩
  · simp at h
  rcases l with _ | ⟨c, l⟩
  · simp at h
  rcases l with _ | ⟨d, l⟩
  · simp at h
  rcases l with _ | ⟨e, l⟩
  · simp at h
  rcases l with _ | ⟨f, l⟩
  · simp at h
  rcases l with _ | ⟨g, l⟩
  · exact ⟨a, b, c, d, e, f, rfl⟩
  · simp at h

lemma charIsDigit_not_out {c : Char} (h : charIsDigit c) : ¬(c < '0' ∨ '9' < c) := by
  push_neg
  exact ⟨h.1, h.2⟩

lemma charIsDigit_out {c : Char} (h : ¬charIsDigit c) : c < '0' ∨ '9' < c := by
  unfold charIsDigit at h
  push_neg at h
  by_cases h0 : '0' ≤ c
  · exact Or.inr (h h0)
  · exact Or.inl (not_le.mp h0)

/-- Reading three digits at positions 3-5 of a six-character string with
`strToUint` succeeds exactly when the three characters are decimal
digits, and then yields their value. -/
lemma strToUint_digits3 (s : String) (h6 : s.data.length = 6) :
    strToUint s 3 3 =
      if charIsDigit (charAt s 3) ∧ charIsDigit (charAt s 4) ∧ charIsDigit (charAt s 5)
      then some (slpDigits s) else none := by
  obtain ⟨data⟩ := s
  obtain ⟨a, b, c, d, e, f, hl⟩ := data_eq_six (by simpa using h6)
  subst hl
  have h3 : charAt ⟨[a, b, c, d, e, f]⟩ 3 = d := rfl
  have h4 : charAt ⟨[a, b, c, d, e, f]⟩ 4 = e := rfl
  have h5 : charAt ⟨[a, b, c, d, e, f]⟩ 5 = f := rfl
  have hsv : slpDigits ⟨[a, b, c, d, e, f]⟩ =
      (d.toNat - '0'.toNat) * 100 + (e.toNat - '0'.toNat) * 10 + (f.toNat - '0'.toNat) := rfl
  have hguard : strToUint ⟨[a, b, c, d, e, f]⟩ 3 3 = strToUintAux [d, e, f] 0 := by
    simp [strToUint]
  rw [hguard, h3, h4, h5, hsv]
  by_cases hd : charIsDigit d
  · by_cases he' : charIsDigit e
    · by_cases hf : charIsDigit f
      · rw [if_pos ⟨hd, he', hf⟩]
        simp only [strToUintAux, if_neg (charIsDigit_not_out hd),
          if_neg (charIsDigit_not_out he'), if_neg (charIsDigit_not_out hf)]
        congr 1
        ring
      · rw [if_neg (show ¬(charIsDigit d ∧ charIsDigit e ∧ charIsDigit f) from
          fun hc => hf hc.2.2)]
        simp only [strToUintAux, if_neg (charIsDigit_not_out hd),
          if_neg (charIsDigit_not_out he'), if_pos (charIsDigit_out hf)]
    · rw [if_neg (show ¬(charIsDigit d ∧ charIsDigit e ∧ charIsDigit f) from
        fun hc => he' hc.2.1)]
      simp only [strToUintAux, if_neg (charIsDigit_not_out hd),
        if_pos (charIsDigit_out he')]
  · rw [if_neg (show ¬(charIsDigit d ∧ charIsDigit e ∧ charIsDigit f) from
      fun hc => hd hc.1)]
    simp only [strToUintAux, if_pos (charIsDigit_out hd)]

namespace GenericParser

variable {G : Type}

lemma processTokens_nil (P : ParserParams G) (st : Status) (gs : List G) :
    processTokens P st gs [] = (st, gs) := rfl

lemma processTokens_cons_of_isError (P : ParserParams G) {st : Status} (gs : List G)
    (tok : String) (rest : List String) (he : st.isError = true) :
    processTokens P st gs (tok :: rest) = (st, gs) := by
  simp [processTokens, he]

lemma processTokens_cons_of_ok (P : ParserParams G) {st : Status} (gs : List G)
    (tok : String) (rest : List String) (he : st.isError = false) :
    processTokens P st gs (tok :: rest) =
      (let em := checkEndMarker tok
       let sg := if em.2 ≠ "" then processOneToken P st gs em.2 else (st, gs)
       if em.1 then sg else processTokens P sg.1 sg.2 rest) := by
  simp [processTokens, he]

/-- The token loop does nothing once the status carries an error
(the loop condition of metaf.h:3289). -/
lemma processTokens_of_isError (P : ParserParams G) {st : Status} (gs : List G)
    (toks : List String) (he : st.isError = true) :
    processTokens P st gs toks = (st, gs) := by
  cases toks with
  | nil => rfl
  | cons tok rest => exact processTokens_cons_of_isError P gs tok rest he

/-- If the loop ends a prefix of the token list with an error set, the
remaining tokens change nothing. -/
lemma processTokens_append_of_error (P : ParserParams G) :
    ∀ (pre : List String) (st : Status) (gs : List G) (suf : List String),
      (processTokens P st gs pre).1.isError = true →
      processTokens P st gs (pre ++ suf) = processTokens P st gs pre := by
  intro pre
  induction pre with
  | nil =>
      intro st gs suf h
      rw [processTokens_nil] at h
      simpa [processTokens_nil] using processTokens_of_isError P gs suf h
  | cons tok rest ih =>
      intro st gs suf h
      by_cases he : st.isError = true
      · rw [List.cons_append, processTokens_cons_of_isError P gs tok _ he,
          processTokens_cons_of_isError P gs tok rest he]
      · rw [Bool.not_eq_true] at he
        rw [processTokens_cons_of_ok P gs tok rest he] at h
        rw [List.cons_append, processTokens_cons_of_ok P gs tok _ he,
          processTokens_cons_of_ok P gs tok rest he]
        simp only at h ⊢
        by_cases h1 : (checkEndMarker tok).1
        · simp only [h1, if_true]
        · simp only [h1, if_false] at h ⊢
          exact ih _ _ suf h

/-- One loop iteration turns the accumulated group count plus one into
the new group count plus the combine flag: a successful combine replaces
the last group, otherwise the new group is appended. -/
lemma saveToResult_length_add (P : ParserParams G) (gs : List G) (g : G) :
    (saveToResult gs g (combineWithLastGroup P (getLastGroup gs) g)).length
      + (if (combineWithLastGroup P (getLastGroup gs) g).isSome then 1 else 0)
    = gs.length + 1 := by
  unfold combineWithLastGroup getLastGroup saveToResult
  cases hgs : gs.getLast? with
  | none => simp
  | some lg =>
      cases hc : P.combine lg g with
      | none => simp [hc]
      | some cg =>
          have hne : gs ≠ [] := by
            intro hnil
            rw [hnil] at hgs
            simp at hgs
          have hpos : 1 ≤ gs.length := List.length_pos.mpr hne
          simp only [hc, Option.isSome_some, if_true, List.length_append,
            List.length_dropLast, List.length_singleton]
          omega

/-- Loop invariant behind the group-count claim: the final number of
groups plus the number of combines equals the initial number of groups
plus the number of consumed tokens. -/
lemma processTokens_length (P : ParserParams G) :
    ∀ (toks : List String) (st : Status) (gs : List G),
      (processTokens P st gs toks).2.length + countCombines P st gs toks
        = gs.length + countConsumed P st gs toks := by
  intro toks
  induction toks with
  | nil =>
      intro st gs
      simp [processTokens_nil, countCombines, countConsumed]
  | cons tok rest ih =>
      intro st gs
      by_cases he : st.isError = true
      · simp [processTokens_cons_of_isError P gs tok rest he, countCombines, countConsumed, he]
      · rw [Bool.not_eq_true] at he
        rw [processTokens_cons_of_ok P gs tok rest he]
        simp only [countCombines, countConsumed, he, Bool.false_eq_true, if_false]
        rcases hem : checkEndMarker tok with ⟨e1, e2⟩
        simp only [hem]
        by_cases h2 : e2 = ""
        · subst h2
          simp only [ne_eq, not_true_eq_false, if_false]
          cases e1
          · simpa using ih st gs
          · simp
        · simp only [ne_eq, h2, not_false_eq_true, if_true, processOneToken]
          have hsave := saveToResult_length_add P gs (parseAndTransition P st e2).1
          cases e1
          · simp only [Bool.false_eq_true, if_false]
            have hih := ih (parseAndTransition P st e2).2
              (saveToResult gs (parseAndTransition P st e2).1
                (combineWithLastGroup P (getLastGroup gs) (parseAndTransition P st e2).1))
            omega
          · simp only [if_true]
            omega

/-- The status produced by the parse/transition loop body preserves the
error-implies-ERROR-state invariant. -/
lemma parseAndTransition_error_state (P : ParserParams G) (st : Status) (s : String)
    (h : st.error ≠ Error.NONE → st.state = State.ERROR) :
    (parseAndTransition P st s).2.error ≠ Error.NONE →
      (parseAndTransition P st s).2.state = State.ERROR := by
  unfold parseAndTransition
  by_cases hr : (st.transition (P.getSyntax (P.parse s st.getReportPart))).isReparseRequired = true
  · simp only [hr, if_true]
    exact transition_error_state _ _ (transition_error_state _ _ h)
  · simp only [hr, Bool.false_eq_true, if_false]
    exact transition_error_state _ _ h

/-- The token loop preserves the error-implies-ERROR-state invariant. -/
lemma processTokens_error_state (P : ParserParams G) :
    ∀ (toks : List String) (st : Status) (gs : List G),
      (st.error ≠ Error.NONE → st.state = State.ERROR) →
      ((processTokens P st gs toks).1.error ≠ Error.NONE →
        (processTokens P st gs toks).1.state = State.ERROR) := by
  intro toks
  induction toks with
  | nil =>
      intro st gs h
      simpa [processTokens_nil] using h
  | cons tok rest ih =>
      intro st gs h
      by_cases he : st.isError = true
      · rw [processTokens_cons_of_isError P gs tok rest he]
        exact h
      · rw [Bool.not_eq_true] at he
        rw [processTokens_cons_of_ok P gs tok rest he]
        rcases hem : checkEndMarker tok with ⟨e1, e2⟩
        simp only [hem]
        by_cases h2 : e2 = ""
        · subst h2
          simp only [ne_eq, not_true_eq_false, if_false]
          cases e1
          · simpa using ih st gs h
          · simpa using h
        · simp only [ne_eq, h2, not_false_eq_true, if_true, processOneToken]
          cases e1
          · simp only [Bool.false_eq_true, if_false]
            exact ih _ _ (parseAndTransition_error_state P st e2 h)
          · simp only [if_true]
            exact parseAndTransition_error_state P st e2 h

/-- Dispatch parts of a single token form a rank-monotone list. -/
lemma tokenParts_chain (P : ParserParams G) (st : Status) (s : String) :
    List.Chain' partLE (tokenParts P st s) := by
  unfold tokenParts
  by_cases hr :
      (st.transition (P.getSyntax (P.parse s st.getReportPart))).isReparseRequired = true
  · simp only [hr, if_true, List.chain'_pair]
    exact transition_rank_mono st _
  · simp [hr]

/-- Every dispatch part of a token is at least the part of the status
before the token. -/
lemma tokenParts_mem (P : ParserParams G) (st : Status) (s : String) :
    ∀ p ∈ tokenParts P st s, partLE st.getReportPart p := by
  unfold tokenParts
  by_cases hr :
      (st.transition (P.getSyntax (P.parse s st.getReportPart))).isReparseRequired = true
  · simp only [hr, if_true]
    intro p hp
    rcases List.mem_pair.mp hp with hp | hp
    · subst hp; exact Nat.le_refl _
    · subst hp; exact transition_rank_mono st _
  · simp only [hr, Bool.false_eq_true, if_false]
    intro p hp
    rw [List.mem_singleton.mp hp]

/-- The last dispatch part of a token is at most the part of the status
after the token. -/
lemma tokenParts_last (P : ParserParams G) (st : Status) (s : String) :
    ∀ x ∈ (tokenParts P st s).getLast?, partLE x (parseAndTransition P st s).2.getReportPart := by
  unfold tokenParts parseAndTransition
  by_cases hr :
      (st.transition (P.getSyntax (P.parse s st.getReportPart))).isReparseRequired = true
  · simp only [hr, if_true]
    intro x hx
    simp only [List.getLast?, Option.mem_def, Option.some_inj] at hx
    subst hx
    exact transition_rank_mono _ _
  · simp only [hr, Bool.false_eq_true, if_false]
    intro x hx
    simp only [List.getLast?, Option.mem_def, Option.some_inj] at hx
    subst hx
    exact transition_rank_mono _ _

/-- The status part never decreases across one full token iteration. -/
lemma parseAndTransition_rank_mono (P : ParserParams G) (st : Status) (s : String) :
    partLE st.getReportPart (parseAndTransition P st s).2.getReportPart := by
  unfold parseAndTransition
  by_cases hr :
      (st.transition (P.getSyntax (P.parse s st.getReportPart))).isReparseRequired = true
  · simp only [hr, if_true]
    exact Nat.le_trans (transition_rank_mono st _) (transition_rank_mono _ _)
  · simp only [hr, Bool.false_eq_true, if_false]
    exact transition_rank_mono st _

/-- The dispatch-part trace of the token loop is rank-monotone, and all
its entries are at least the part of the starting status. -/
lemma partsTrace_chain (P : ParserParams G) :
    ∀ (toks : List String) (st : Status) (gs : List G),
      List.Chain' partLE (partsTrace P st gs toks) ∧
      ∀ p ∈ partsTrace P st gs toks, partLE st.getReportPart p := by
  intro toks
  induction toks with
  | nil =>
      intro st gs
      simp [partsTrace]
  | cons tok rest ih =>
      intro st gs
      by_cases he : st.isError = true
      · simp [partsTrace, he]
      · rw [Bool.not_eq_true] at he
        simp only [partsTrace, he, Bool.false_eq_true, if_false]
        rcases hem : checkEndMarker tok with ⟨e1, e2⟩
        simp only
        by_cases h2 : e2 = ""
        · subst h2
          simp only [ne_eq, not_true_eq_false, if_false]
          cases e1
          · simpa using ih st gs
          · simp
        · simp only [ne_eq, h2, not_false_eq_true, if_true]
          cases e1
          · simp only [Bool.false_eq_true, if_false]
            constructor
            · rw [List.chain'_append]
              refine ⟨tokenParts_chain P st e2, (ih _ _).1, ?_⟩
              intro x hx y hy
              have hy' := (ih (processOneToken P st gs e2).1 (processOneToken P st gs e2).2).2
                y (List.mem_of_mem_head? hy)
              have hx' := tokenParts_last P st e2 x hx
              exact Nat.le_trans hx' hy'
            · intro p hp
              rcases List.mem_append.mp hp with hp | hp
              · exact tokenParts_mem P st e2 p hp
              · exact Nat.le_trans (parseAndTransition_rank_mono P st e2)
                  ((ih _ _).2 p hp)
          · simp only [if_true, List.append_nil]
            exact ⟨tokenParts_chain P st e2, tokenParts_mem P st e2⟩

/-- A token carrying the end marker stops the loop: every token after it
is ignored, wherever it occurs in the list. -/
lemma processTokens_endMarker_stops (P : ParserParams G) :
    ∀ (pre : List String) (st : Status) (gs : List G) (tok : String) (suf : List String),
      (checkEndMarker tok).1 = true →
      processTokens P st gs (pre ++ tok :: suf) = processTokens P st gs (pre ++ [tok]) := by
  intro pre
  induction pre with
  | nil =>
      intro st gs tok suf h1
      by_cases he : st.isError = true
      · rw [List.nil_append, List.nil_append, processTokens_cons_of_isError P gs tok _ he,
          processTokens_cons_of_isError P gs tok _ he]
      · rw [Bool.not_eq_true] at he
        rw [List.nil_append, List.nil_append, processTokens_cons_of_ok P gs tok suf he,
          processTokens_cons_of_ok P gs tok [] he]
        simp only [h1, if_true]
  | cons tok0 rest ih =>
      intro st gs tok suf h1
      by_cases he : st.isError = true
      · rw [List.cons_append, List.cons_append, processTokens_cons_of_isError P gs tok0 _ he,
          processTokens_cons_of_isError P gs tok0 _ he]
      · rw [Bool.not_eq_true] at he
        rw [List.cons_append, List.cons_append, processTokens_cons_of_ok P gs tok0 _ he,
          processTokens_cons_of_ok P gs tok0 _ he]
        rcases hem : checkEndMarker tok0 with ⟨e1, e2⟩
        simp only
        cases e1
        · simp only [Bool.false_eq_true, if_false]
          exact ih _ _ tok suf h1
        · simp only [if_true]

end GenericParser

/-! Claim theorems. -/

/-- C1: for every instantiation of the parser template and every token
list whose parse finishes with error NONE, the number of groups in the
result equals the number of consumed tokens minus the number of combines
performed (each successful combine replaces the last accumulated group
instead of appending a new one). -/
theorem claim_C1 {G : Type} (P : ParserParams G) (toks : List String)
    (h : (GenericParser.parseTokens P toks).error = Error.NONE) :
    (GenericParser.parseTokens P toks).groups.length =
      GenericParser.countConsumed P Status.init [] toks
        - GenericParser.countCombines P Status.init [] toks := by
  have hlen := GenericParser.processTokens_length P toks Status.init []
  simp only [List.length_nil, Nat.zero_add] at hlen
  have hgroups : (GenericParser.parseTokens P toks).groups =
      (GenericParser.processTokens P Status.init [] toks).2 := rfl
  rw [hgroups]
  omega

theorem claim_C1_witness :
    (GenericParser.parseTokens syntaxParams ["KJFK", "181830Z", "NIL"]).error = Error.NONE ∧
    (GenericParser.parseTokens syntaxParams ["KJFK", "181830Z", "NIL"]).groups.length =
      GenericParser.countConsumed syntaxParams Status.init [] ["KJFK", "181830Z", "NIL"] -
        GenericParser.countCombines syntaxParams Status.init [] ["KJFK", "181830Z", "NIL"] :=
  ⟨by decide, claim_C1 syntaxParams ["KJFK", "181830Z", "NIL"] (by decide)⟩

/-- C2: once a terminal error is set by a state-machine transition on a
prefix of the input, the remaining tokens are neither parsed nor
appended: the loop result on the whole input equals the loop result on
the prefix, the final groups are exactly those accumulated up to the
error, and the result's error field is that first error. -/
theorem claim_C2 {G : Type} (P : ParserParams G) (pre suf : List String) (e : Error)
    (h : (GenericParser.processTokens P Status.init [] pre).1.error = e)
    (hne : e ≠ Error.NONE) :
    GenericParser.processTokens P Status.init [] (pre ++ suf) =
        GenericParser.processTokens P Status.init [] pre ∧
      (GenericParser.parseTokens P (pre ++ suf)).groups =
        (GenericParser.processTokens P Status.init [] pre).2 ∧
      (GenericParser.parseTokens P (pre ++ suf)).error = e := by
  have herr : (GenericParser.processTokens P Status.init [] pre).1.isError = true := by
    simp [Status.isError, h, hne]
  have happ := GenericParser.processTokens_append_of_error P pre Status.init [] suf herr
  have hstate : (GenericParser.processTokens P Status.init [] pre).1.state = State.ERROR := by
    refine GenericParser.processTokens_error_state P pre Status.init [] ?_ ?_
    · intro hinit
      exact absurd rfl hinit
    · rw [h]; exact hne
  refine ⟨happ, ?_, ?_⟩
  · show (GenericParser.processTokens P Status.init [] (pre ++ suf)).2 = _
    rw [happ]
  · show ((GenericParser.processTokens P Status.init [] (pre ++ suf)).1.finalTransition).error = e
    rw [happ, finalTransition_of_error_state _ hstate, h]

theorem claim_C2_witness :
    (GenericParser.processTokens syntaxParams Status.init [] ["METAR", "AMD"]).1.error =
        Error.AMD_ALLOWED_IN_TAF_ONLY ∧
    (GenericParser.parseTokens syntaxParams ["METAR", "AMD", "KJFK"]).error =
        Error.AMD_ALLOWED_IN_TAF_ONLY :=
  ⟨by decide,
    (claim_C2 syntaxParams ["METAR", "AMD"] ["KJFK"] Error.AMD_ALLOWED_IN_TAF_ONLY
      (by decide) (by decide)).2.2⟩

/-- C5: for every instantiation of the parser template and every input,
the sequence of report parts under which the dispatcher is invoked is
monotone in the order HEADER, then METAR or TAF body, then RMK, then
the terminal states (mapped to UNKNOWN): no dispatch event returns to an
earlier part. -/
theorem claim_C5 {G : Type} (P : ParserParams G) (toks : List String) :
    List.Pairwise partLE (GenericParser.partsTrace P Status.init [] toks) :=
  List.chain'_iff_pairwise.mp (GenericParser.partsTrace_chain P toks Status.init []).1

/-- C10: a token whose last character is `=` — wherever it occurs — has
the `=` stripped before parsing and terminates token ingestion: the loop
result on the whole list equals the result with every token after it
removed, and the token itself is processed as its stripped remainder. -/
theorem claim_C10 {G : Type} (P : ParserParams G) (st : Status) (gs : List G)
    (pre : List String) (tok : String) (suf : List String)
    (hne : tok ≠ "") (heq : tok.data.getLast? = some '=') :
    GenericParser.checkEndMarker tok = (true, ⟨tok.data.dropLast⟩) ∧
    GenericParser.processTokens P st gs (pre ++ tok :: suf) =
      GenericParser.processTokens P st gs (pre ++ [tok]) ∧
    (st.isError = false →
      GenericParser.processTokens P st gs [tok] =
        if (⟨tok.data.dropLast⟩ : String) ≠ "" then
          GenericParser.processOneToken P st gs ⟨tok.data.dropLast⟩
        else (st, gs)) := by
  have hcem : GenericParser.checkEndMarker tok = (true, ⟨tok.data.dropLast⟩) := by
    unfold GenericParser.checkEndMarker
    rw [if_pos ⟨hne, heq⟩]
  refine ⟨hcem, ?_, ?_⟩
  · exact GenericParser.processTokens_endMarker_stops P pre st gs tok suf (by rw [hcem])
  · intro he
    rw [GenericParser.processTokens_cons_of_ok P gs tok [] he]
    simp only [hcem, if_true]

/-- C3: for every instantiation of the parser template that classifies
the token `METAR` in the header as the METAR syntax group, parsing the
empty input yields error EMPTY_REPORT with an empty groups list, and
parsing the single-token input `METAR` yields error
UNEXPECTED_REPORT_END. -/
theorem claim_C3 {G : Type} (P : ParserParams G)
    (hMETAR : P.getSyntax (P.parse "METAR" ReportPart.HEADER) = SyntaxGroup.METAR) :
    (GenericParser.parse P "").error = Error.EMPTY_REPORT ∧
    (GenericParser.parse P "").groups = [] ∧
    (GenericParser.parse P "METAR").error = Error.UNEXPECTED_REPORT_END := by
  refine ⟨rfl, rfl, ?_⟩
  have hcem : GenericParser.checkEndMarker "METAR" = (false, "METAR") := by decide
  have hrun : GenericParser.processTokens P Status.init [] ["METAR"] =
      (⟨State.CORRECTION, ReportType.METAR, Error.NONE⟩, [P.parse "METAR" ReportPart.HEADER]) := by
    rw [GenericParser.processTokens_cons_of_ok P [] "METAR" [] (by decide)]
    simp [hcem, GenericParser.processTokens, GenericParser.processOneToken,
      GenericParser.parseAndTransition, GenericParser.combineWithLastGroup,
      GenericParser.getLastGroup, GenericParser.saveToResult, Status.init,
      Status.getReportPart, Status.transition, Status.transitionFromReportTypeOrLocation,
      Status.setReportType, Status.setState, Status.isReparseRequired, hMETAR]
  show ((GenericParser.processTokens P Status.init []
      (GenericParser.tokenize "METAR")).1.finalTransition).error = _
  rw [show GenericParser.tokenize "METAR" = ["METAR"] from rfl, hrun]
  rfl

theorem claim_C3_witness :
    getSyntaxGroupOfToken "METAR" ReportPart.HEADER = SyntaxGroup.METAR ∧
    (GenericParser.parse syntaxParams "").error = Error.EMPTY_REPORT ∧
    (GenericParser.parse syntaxParams "").groups = [] ∧
    (GenericParser.parse syntaxParams "METAR").error = Error.UNEXPECTED_REPORT_END :=
  ⟨by decide, claim_C3 syntaxParams (by decide)⟩

/-- C4: in the CORRECTION state an AMD token moves the state machine to
expect a location but produces the terminal error AMD_ALLOWED_IN_TAF_ONLY
whenever the report type is not TAF; consequently, for every
instantiation that classifies `TAF`, `AMD` and `METAR` header tokens by
their syntax groups, ingesting `TAF AMD` leaves report type TAF with no
error and the LOCATION state expected next, while parsing
`METAR AMD KJFK` yields error AMD_ALLOWED_IN_TAF_ONLY. -/
theorem claim_C4 {G : Type} (P : ParserParams G)
    (hTAF : P.getSyntax (P.parse "TAF" ReportPart.HEADER) = SyntaxGroup.TAF)
    (hAMD : P.getSyntax (P.parse "AMD" ReportPart.HEADER) = SyntaxGroup.AMD)
    (hMETAR : P.getSyntax (P.parse "METAR" ReportPart.HEADER) = SyntaxGroup.METAR) :
    (∀ (rt : ReportType) (e : Error),
        Status.transition ⟨State.CORRECTION, rt, e⟩ SyntaxGroup.AMD =
          if rt = ReportType.TAF then ⟨State.LOCATION, rt, e⟩
          else ⟨State.ERROR, rt, Error.AMD_ALLOWED_IN_TAF_ONLY⟩) ∧
    (GenericParser.processTokens P Status.init [] (GenericParser.tokenize "TAF AMD")).1 =
      ⟨State.LOCATION, ReportType.TAF, Error.NONE⟩ ∧
    (GenericParser.parse P "METAR AMD KJFK").error = Error.AMD_ALLOWED_IN_TAF_ONLY := by
  have hcemTAF : GenericParser.checkEndMarker "TAF" = (false, "TAF") := by decide
  have hcemAMD : GenericParser.checkEndMarker "AMD" = (false, "AMD") := by decide
  have hcemMETAR : GenericParser.checkEndMarker "METAR" = (false, "METAR") := by decide
  refine ⟨by decide, ?_, ?_⟩
  · rw [show GenericParser.tokenize "TAF AMD" = ["TAF", "AMD"] from rfl]
    simp [hcemTAF, hcemAMD, hTAF, hAMD, GenericParser.processTokens,
      GenericParser.processOneToken, GenericParser.parseAndTransition,
      GenericParser.combineWithLastGroup, GenericParser.getLastGroup,
      GenericParser.saveToResult, Status.init, Status.getReportPart, Status.transition,
      Status.transitionFromReportTypeOrLocation, Status.transitionFromCorrecton,
      Status.setReportType, Status.setState, Status.setError, Status.isReparseRequired,
      Status.isError]
  · show ((GenericParser.processTokens P Status.init []
        (GenericParser.tokenize "METAR AMD KJFK")).1.finalTransition).error = _
    rw [show GenericParser.tokenize "METAR AMD KJFK" = ["METAR", "AMD", "KJFK"] from rfl]
    have hrun : (GenericParser.processTokens P Status.init [] ["METAR", "AMD", "KJFK"]).1 =
        ⟨State.ERROR, ReportType.METAR, Error.AMD_ALLOWED_IN_TAF_ONLY⟩ := by
      simp [hcemMETAR, hcemAMD, hMETAR, hAMD, GenericParser.processTokens,
        GenericParser.processOneToken, GenericParser.parseAndTransition,
        GenericParser.combineWithLastGroup, GenericParser.getLastGroup,
        GenericParser.saveToResult, Status.init, Status.getReportPart, Status.transition,
        Status.transitionFromReportTypeOrLocation, Status.transitionFromCorrecton,
        Status.setReportType, Status.setState, Status.setError, Status.isReparseRequired,
        Status.isError]
    rw [hrun]
    rfl

theorem claim_C4_witness :
    getSyntaxGroupOfToken "TAF" ReportPart.HEADER = SyntaxGroup.TAF ∧
    getSyntaxGroupOfToken "AMD" ReportPart.HEADER = SyntaxGroup.AMD ∧
    (GenericParser.processTokens syntaxParams Status.init []
        (GenericParser.tokenize "TAF AMD")).1 =
      ⟨State.LOCATION, ReportType.TAF, Error.NONE⟩ ∧
    (GenericParser.parse syntaxParams "METAR AMD KJFK").error =
      Error.AMD_ALLOWED_IN_TAF_ONLY := by
  have h := claim_C4 syntaxParams (by decide) (by decide) (by decide)
  exact ⟨by decide, by decide, h.2.1, h.2.2⟩

theorem claim_C10_witness :
    GenericParser.checkEndMarker "Q1013=" = (true, "Q1013") ∧
    GenericParser.processTokens syntaxParams Status.init [] ["Q1013=", "X"] =
      GenericParser.processTokens syntaxParams Status.init [] ["Q1013="] := by
  have h := claim_C10 syntaxParams Status.init [] [] "Q1013=" ["X"] (by decide) (by decide)
  exact ⟨h.1, h.2.1⟩

/-- C6 (counterexample to the claim as stated): a fraction distance with
numerator 0 — e.g. the result of `Distance::fromMileString("0/4SM")` —
satisfies `isFraction`, has the same unit as the integer distance 1 SM
and both modifiers are NONE, yet `fromIntegerAndFraction` returns no
value, because the source additionally requires `isValid()` of both
arguments (metaf.h:1735-1736), which fails for a zero numerator
(metaf.h:229). -/
theorem claim_C6_counterexample :
    Distance.isInteger
        ⟨DistanceModifier.NONE, some 1, none, none, DistanceUnit.STATUTE_MILES⟩ = true ∧
    Distance.isFraction
        ⟨DistanceModifier.NONE, none, some 0, some 4, DistanceUnit.STATUTE_MILES⟩ = true ∧
    (⟨DistanceModifier.NONE, some 1, none, none, DistanceUnit.STATUTE_MILES⟩ :
        Distance).distUnit =
      (⟨DistanceModifier.NONE, none, some 0, some 4, DistanceUnit.STATUTE_MILES⟩ :
        Distance).distUnit ∧
    (⟨DistanceModifier.NONE, some 1, none, none, DistanceUnit.STATUTE_MILES⟩ :
        Distance).distModifier = DistanceModifier.NONE ∧
    (⟨DistanceModifier.NONE, none, some 0, some 4, DistanceUnit.STATUTE_MILES⟩ :
        Distance).distModifier = DistanceModifier.NONE ∧
    Distance.fromIntegerAndFraction
        ⟨DistanceModifier.NONE, some 1, none, none, DistanceUnit.STATUTE_MILES⟩
        ⟨DistanceModifier.NONE, none, some 0, some 4, DistanceUnit.STATUTE_MILES⟩ = none := by
  decide

/-- C6 (amended): `Distance.fromIntegerAndFraction(integer, fraction)`
returns a value if and only if both arguments are valid (`isValid`),
`integer.isInteger()` and `fraction.isFraction()` hold, both have the
same unit and both have modifier NONE; when it returns a value, that
value carries the integer part of the first argument and the numerator
and denominator of the second. -/
theorem claim_C6 (i f : Distance) :
    ((Distance.fromIntegerAndFraction i f).isSome ↔
      (i.isValid = true ∧ f.isValid = true ∧ i.isInteger = true ∧ f.isFraction = true ∧
        i.distUnit = f.distUnit ∧ i.distModifier = DistanceModifier.NONE ∧
        f.distModifier = DistanceModifier.NONE)) ∧
    (∀ r : Distance, Distance.fromIntegerAndFraction i f = some r →
      r.distValueInt = i.distValueInt ∧ r.distValueNum = f.distValueNum ∧
        r.distValueDen = f.distValueDen ∧ r.distUnit = i.distUnit) := by
  constructor
  · unfold Distance.fromIntegerAndFraction
    split
    next h =>
      simp only [Option.isSome_none, Bool.false_eq_true, false_iff]
      rintro ⟨h1, h2, h3, h4, h5, h6, h7⟩
      rcases h with h | h | h | h | h | h | h
      · exact h h1
      · exact h h2
      · exact h h6
      · exact h h7
      · exact h h5
      · exact h h3
      · exact h h4
    next h =>
      simp only [Option.isSome_some, true_iff]
      push_neg at h
      obtain ⟨hv1, hv2, hm1, hm2, hu, hi, hf⟩ := h
      exact ⟨hv1, hv2, hi, hf, hu, hm1, hm2⟩
  · intro r hr
    unfold Distance.fromIntegerAndFraction at hr
    split at hr
    next => exact absurd hr (by simp)
    next h =>
      rw [Option.some_inj] at hr
      rw [← hr]
      exact ⟨rfl, rfl, rfl, rfl⟩

theorem claim_C6_witness :
    (Distance.fromIntegerAndFraction
        ⟨DistanceModifier.NONE, some 1, none, none, DistanceUnit.STATUTE_MILES⟩
        ⟨DistanceModifier.NONE, none, some 3, some 4, DistanceUnit.STATUTE_MILES⟩).isSome ∧
    (⟨DistanceModifier.NONE, some 1, some 3, some 4, DistanceUnit.STATUTE_MILES⟩ :
          Distance).distValueInt =
        (⟨DistanceModifier.NONE, some 1, none, none, DistanceUnit.STATUTE_MILES⟩ :
          Distance).distValueInt ∧
      (⟨DistanceModifier.NONE, some 1, some 3, some 4, DistanceUnit.STATUTE_MILES⟩ :
          Distance).distValueNum =
        (⟨DistanceModifier.NONE, none, some 3, some 4, DistanceUnit.STATUTE_MILES⟩ :
          Distance).distValueNum ∧
      (⟨DistanceModifier.NONE, some 1, some 3, some 4, DistanceUnit.STATUTE_MILES⟩ :
          Distance).distValueDen =
        (⟨DistanceModifier.NONE, none, some 3, some 4, DistanceUnit.STATUTE_MILES⟩ :
          Distance).distValueDen ∧
      (⟨DistanceModifier.NONE, some 1, some 3, some 4, DistanceUnit.STATUTE_MILES⟩ :
          Distance).distUnit =
        (⟨DistanceModifier.NONE, some 1, none, none, DistanceUnit.STATUTE_MILES⟩ :
          Distance).distUnit := by
  have h := claim_C6
    ⟨DistanceModifier.NONE, some 1, none, none, DistanceUnit.STATUTE_MILES⟩
    ⟨DistanceModifier.NONE, none, some 3, some 4, DistanceUnit.STATUTE_MILES⟩
  exact ⟨h.1.mpr (by decide),
    h.2 ⟨DistanceModifier.NONE, some 1, some 3, some 4, DistanceUnit.STATUTE_MILES⟩ (by decide)⟩

/-- C7: starting from the group parsed from `WS` in a METAR body,
combining with plain-text `ALL` reaches the intermediate INCOMPLETE_WS_ALL
state, then combining with plain-text `RWY` yields a complete group whose
runway is the all-runways value; both intermediate states have
`is_valid() = false`, and any other plain-text follow-up offered from the
intermediate `WS` or `WS ALL` states is not combined, so the group stays
in its invalid intermediate state. -/
theorem claim_C7 :
    WindShearLowLayerGroup.parse "WS" ReportPart.METAR =
      some ⟨⟨0, RunwayDesignator.NONE⟩, WindShearLowLayerStatus.INCOMPLETE_WS⟩ ∧
    WindShearLowLayerGroup.combine
        ⟨⟨0, RunwayDesignator.NONE⟩, WindShearLowLayerStatus.INCOMPLETE_WS⟩
        (Group.plainText (PlainTextGroup.ofString "ALL")) =
      some (Group.windShearLowLayer
        ⟨⟨0, RunwayDesignator.NONE⟩, WindShearLowLayerStatus.INCOMPLETE_WS_ALL⟩) ∧
    WindShearLowLayerGroup.combine
        ⟨⟨0, RunwayDesignator.NONE⟩, WindShearLowLayerStatus.INCOMPLETE_WS_ALL⟩
        (Group.plainText (PlainTextGroup.ofString "RWY")) =
      some (Group.windShearLowLayer
        ⟨⟨88, RunwayDesignator.NONE⟩, WindShearLowLayerStatus.COMPLETE⟩) ∧
    Runway.isAllRunways ⟨88, RunwayDesignator.NONE⟩ = true ∧
    WindShearLowLayerGroup.isValid
      ⟨⟨88, RunwayDesignator.NONE⟩, WindShearLowLayerStatus.COMPLETE⟩ = true ∧
    WindShearLowLayerGroup.isValid
      ⟨⟨0, RunwayDesignator.NONE⟩, WindShearLowLayerStatus.INCOMPLETE_WS⟩ = false ∧
    WindShearLowLayerGroup.isValid
      ⟨⟨0, RunwayDesignator.NONE⟩, WindShearLowLayerStatus.INCOMPLETE_WS_ALL⟩ = false ∧
    (∀ p : PlainTextGroup, p.toString ≠ "ALL" → Runway.fromString p.toString true = none →
      WindShearLowLayerGroup.combine
        ⟨⟨0, RunwayDesignator.NONE⟩, WindShearLowLayerStatus.INCOMPLETE_WS⟩
        (Group.plainText p) = none) ∧
    (∀ p : PlainTextGroup, p.toString ≠ "RWY" →
      WindShearLowLayerGroup.combine
        ⟨⟨0, RunwayDesignator.NONE⟩, WindShearLowLayerStatus.INCOMPLETE_WS_ALL⟩
        (Group.plainText p) = none) := by
  refine ⟨by decide, by decide, by decide, by decide, by decide, by decide, by decide, ?_, ?_⟩
  · intro p h1 h2
    simp [WindShearLowLayerGroup.combine, h1, h2]
  · intro p h1
    simp [WindShearLowLayerGroup.combine, h1]

theorem claim_C7_witness :
    WindShearLowLayerGroup.combine
        ⟨⟨0, RunwayDesignator.NONE⟩, WindShearLowLayerStatus.INCOMPLETE_WS⟩
        (Group.plainText (PlainTextGroup.ofString "FOO")) = none ∧
    WindShearLowLayerGroup.combine
        ⟨⟨0, RunwayDesignator.NONE⟩, WindShearLowLayerStatus.INCOMPLETE_WS_ALL⟩
        (Group.plainText (PlainTextGroup.ofString "R22")) = none := by
  have h := claim_C7
  exact ⟨h.2.2.2.2.2.2.2.1 (PlainTextGroup.ofString "FOO") (by decide) (by decide),
    h.2.2.2.2.2.2.2.2 (PlainTextGroup.ofString "R22") (by decide)⟩

/-- C8: `Pressure.fromSlpString` accepts exactly the strings of shape
`SLPnnn` with three decimal digits, returning a hectopascal pressure of
`nnn / 10 + base` where base is 1000 when `nnn < 500` and 900 otherwise;
every other string is rejected. -/
theorem claim_C8 (s : String) :
    ((Pressure.fromSlpString s).isSome ↔ slpShape s) ∧
    (slpShape s →
      Pressure.fromSlpString s =
        some ⟨some ((slpDigits s : ℚ) / 10 + if slpDigits s < 500 then 1000 else 900),
          PressureUnit.HECTOPASCAL⟩) := by
  by_cases h6 : s.data.length = 6
  · unfold Pressure.fromSlpString
    rw [if_neg (not_not_intro h6)]
    by_cases hpre : charAt s 0 = 'S' ∧ charAt s 1 = 'L' ∧ charAt s 2 = 'P'
    · rw [if_neg (show ¬(charAt s 0 ≠ 'S' ∨ charAt s 1 ≠ 'L' ∨ charAt s 2 ≠ 'P') by
        push_neg; exact hpre)]
      rw [strToUint_digits3 s h6]
      by_cases hdig : charIsDigit (charAt s 3) ∧ charIsDigit (charAt s 4) ∧
          charIsDigit (charAt s 5)
      · rw [if_pos hdig]
        constructor
        · simp only [Option.isSome_some, true_iff]
          exact ⟨h6, hpre.1, hpre.2.1, hpre.2.2, hdig.1, hdig.2.1, hdig.2.2⟩
        · intro _
          rfl
      · rw [if_neg hdig]
        constructor
        · simp only [Option.isSome_none, Bool.false_eq_true, false_iff]
          rintro ⟨_, _, _, _, hd3, hd4, hd5⟩
          exact hdig ⟨hd3, hd4, hd5⟩
        · rintro ⟨_, _, _, _, hd3, hd4, hd5⟩
          exact absurd ⟨hd3, hd4, hd5⟩ hdig
    · rw [if_pos (show charAt s 0 ≠ 'S' ∨ charAt s 1 ≠ 'L' ∨ charAt s 2 ≠ 'P' by
        by_contra hcon; push_neg at hcon; exact hpre hcon)]
      constructor
      · simp only [Option.isSome_none, Bool.false_eq_true, false_iff]
        rintro ⟨_, hS, hL, hP, _⟩
        exact hpre ⟨hS, hL, hP⟩
      · rintro ⟨_, hS, hL, hP, _⟩
        exact absurd ⟨hS, hL, hP⟩ hpre
  · unfold Pressure.fromSlpString
    rw [if_pos h6]
    constructor
    · simp only [Option.isSome_none, Bool.false_eq_true, false_iff]
      rintro ⟨hl, _⟩
      exact h6 hl
    · rintro ⟨hl, _⟩
      exact absurd hl h6

theorem claim_C8_witness :
    (Pressure.fromSlpString "SLP982").isSome ∧
    Pressure.fromSlpString "SLP982" =
      some ⟨some ((slpDigits "SLP982" : ℚ) / 10 +
        if slpDigits "SLP982" < 500 then 1000 else 900), PressureUnit.HECTOPASCAL⟩ := by
  have h := claim_C8 "SLP982"
  exact ⟨h.1.mpr (by decide), h.2 (by decide)⟩

/-- C9: `Precipitation.fromRunwayDeposits` maps two-digit codes 00-90 to
status REPORTED with the code value verbatim in millimetres, codes 92-98
to 100, 150, 200, 250, 300, 350, 400 mm, code 99 to status
RUNWAY_NOT_OPERATIONAL; code 91 is rejected, `//` yields status
NOT_REPORTED, and every string whose length is not 2 is rejected. -/
theorem claim_C9 :
    (∀ n : Nat, n ≤ 90 →
      Precipitation.fromRunwayDeposits (twoDigitString n) =
        some ⟨PrecipitationStatus.REPORTED, (n : ℚ)⟩) ∧
    Precipitation.fromRunwayDeposits "92" = some ⟨PrecipitationStatus.REPORTED, 100⟩ ∧
    Precipitation.fromRunwayDeposits "93" = some ⟨PrecipitationStatus.REPORTED, 150⟩ ∧
    Precipitation.fromRunwayDeposits "94" = some ⟨PrecipitationStatus.REPORTED, 200⟩ ∧
    Precipitation.fromRunwayDeposits "95" = some ⟨PrecipitationStatus.REPORTED, 250⟩ ∧
    Precipitation.fromRunwayDeposits "96" = some ⟨PrecipitationStatus.REPORTED, 300⟩ ∧
    Precipitation.fromRunwayDeposits "97" = some ⟨PrecipitationStatus.REPORTED, 350⟩ ∧
    Precipitation.fromRunwayDeposits "98" = some ⟨PrecipitationStatus.REPORTED, 400⟩ ∧
    Precipitation.fromRunwayDeposits "99" =
      some ⟨PrecipitationStatus.RUNWAY_NOT_OPERATIONAL, 0⟩ ∧
    Precipitation.fromRunwayDeposits "91" = none ∧
    Precipitation.fromRunwayDeposits "//" =
      some ⟨PrecipitationStatus.NOT_REPORTED, 0⟩ ∧
    (∀ s : String, s.data.length ≠ 2 → Precipitation.fromRunwayDeposits s = none) := by
  have hfin : ∀ n : Fin 91,
      Precipitation.fromRunwayDeposits (twoDigitString (n : Nat)) =
        some ⟨PrecipitationStatus.REPORTED, ((n : Nat) : ℚ)⟩ := by decide
  refine ⟨?_, by decide, by decide, by decide, by decide, by decide, by decide, by decide,
    by decide, by decide, by decide, ?_⟩
  · intro n hn
    exact hfin ⟨n, by omega⟩
  · intro s hs
    unfold Precipitation.fromRunwayDeposits
    rw [if_pos hs]

theorem claim_C9_witness :
    Precipitation.fromRunwayDeposits (twoDigitString 55) =
      some ⟨PrecipitationStatus.REPORTED, ((55 : Nat) : ℚ)⟩ ∧
    Precipitation.fromRunwayDeposits "123" = none := by
  obtain ⟨h1, _, _, _, _, _, _, _, _, _, _, hlen⟩ := claim_C9
  exact ⟨h1 55 (by decide), hlen "123" (by decide)⟩

end Metaf
